import Mathlib

/-!
Verification development for the pybmpmon BMP collector.

The definitions below are a shallow embedding of the Python sources:
`pybmpmon/utils/binary.py`, `pybmpmon/protocol/bmp_parser.py`,
`pybmpmon/protocol/bgp_parser.py`, `pybmpmon/listener.py`,
`pybmpmon/database/batch_writer.py` and `pybmpmon/database/migrations.py`.
Byte strings are `List Nat` (each entry one octet), fallible code returns
`Except String`, and the `while` loops of the source become fuelled
recursions (every loop of the source consumes at least one byte per
iteration, so fuel `data.length + 1` is never exhausted on the paths the
source can take).
-/

/-- Embeds `binary.read_uint8`: bounded read of one octet. -/
def read_uint8 (data : List Nat) (offset : Nat) : Except String Nat :=
  if data.length < offset + 1 then
    .error "Not enough data to read uint8"
  else
    .ok (data.getD offset 0)

/-- Embeds `binary.read_uint16`: bounded big-endian read of two octets. -/
def read_uint16 (data : List Nat) (offset : Nat) : Except String Nat :=
  if data.length < offset + 2 then
    .error "Not enough data to read uint16"
  else
    .ok (256 * data.getD offset 0 + data.getD (offset + 1) 0)

/-- Embeds `binary.read_uint32`: bounded big-endian read of four octets. -/
def read_uint32 (data : List Nat) (offset : Nat) : Except String Nat :=
  if data.length < offset + 4 then
    .error "Not enough data to read uint32"
  else
    .ok (16777216 * data.getD offset 0 + 65536 * data.getD (offset + 1) 0
      + 256 * data.getD (offset + 2) 0 + data.getD (offset + 3) 0)

/-- Embeds `binary.read_bytes`: bounded slice of `length` octets. -/
def read_bytes (data : List Nat) (offset : Nat) (length : Nat) :
    Except String (List Nat) :=
  if data.length < offset + length then
    .error "Not enough data to read bytes"
  else
    .ok ((data.drop offset).take length)

/-- Embeds `str(ipaddress.IPv4Address(b))` for a 4-byte slice: dotted
decimal rendering. -/
def ipv4_str (bs : List Nat) : String :=
  String.intercalate "." (bs.map (fun b => toString b))

/-- Lowercase hexadecimal rendering of a natural number, no leading
zeros, as Python`s `"%x" % n`. -/
def natToHex (n : Nat) : String :=
  String.mk (Nat.toDigits 16 n)

/-- Two-digit lowercase hexadecimal rendering of one octet, as Python`s
`f"{b:02x}"`. -/
def byteHex2 (b : Nat) : String :=
  if b < 16 then "0" ++ natToHex b else natToHex b

/-- Embeds `bytes.hex()`: concatenated two-digit hex of every octet. -/
def bytesHex (bs : List Nat) : String :=
  String.join (bs.map byteHex2)

/-- Embeds the colon-joined per-octet hex rendering
`":".join(f"{b:02x}" for b in bs)` used for MAC addresses and ESIs. -/
def macColonHex (bs : List Nat) : String :=
  String.intercalate ":" (bs.map byteHex2)

/-- State of the zero-run scan in `ipaddress._compress_hextets`:
best run start and length, current run start and length (`none`
plays the role of Python`s -1 sentinel). -/
structure HextetScan where
  best_start : Nat
  best_len : Nat
  cur_start : Option Nat
  cur_len : Nat

/-- One step of the zero-run scan in `ipaddress._compress_hextets`. -/
def hextetScanStep (st : HextetScan) (ih : Nat × String) : HextetScan :=
  if ih.2 = "0" then
    let cur_start := match st.cur_start with
      | none => some ih.1
      | some s => some s
    let cur_len := st.cur_len + 1
    if st.best_len < cur_len then
      { best_start := cur_start.getD 0, best_len := cur_len,
        cur_start := cur_start, cur_len := cur_len }
    else
      { st with cur_start := cur_start, cur_len := cur_len }
  else
    { st with cur_start := none, cur_len := 0 }

/-- Embeds `ipaddress.IPv6Address._compress_hextets`: replace the longest
run (length at least 2) of zero groups by empty strings so the final
colon join prints `::`. -/
def compress_hextets (hx : List String) : List String :=
  let st := (hx.enum).foldl hextetScanStep
    { best_start := 0, best_len := 0, cur_start := none, cur_len := 0 }
  if 1 < st.best_len then
    let e := st.best_start + st.best_len
    let hx2 := if e = hx.length then hx ++ [""] else hx
    let spliced := hx2.take st.best_start ++ [""] ++ hx2.drop e
    if st.best_start = 0 then "" :: spliced else spliced
  else hx

/-- Group a 16-byte slice into eight 16-bit hextet values. -/
def hextets16 : List Nat → List Nat
  | b0 :: b1 :: rest => (256 * b0 + b1) :: hextets16 rest
  | _ => []

/-- Embeds `str(ipaddress.IPv6Address(b))` for a 16-byte slice:
RFC 5952 compressed lowercase rendering as produced by Python. -/
def ipv6_str (bs : List Nat) : String :=
  String.intercalate ":" (compress_hextets ((hextets16 bs).map natToHex))

/-- Embeds `binary.read_ipv4_address`. -/
def read_ipv4_address (data : List Nat) (offset : Nat) : Except String String :=
  if data.length < offset + 4 then
    .error "Not enough data to read IPv4 address"
  else
    .ok (ipv4_str ((data.drop offset).take 4))

/-- Embeds `binary.read_ip_address`: 16-byte field, IPv6 when the flag is
set or any of the first 12 octets is nonzero, IPv4-mapped otherwise. -/
def read_ip_address (data : List Nat) (offset : Nat) (is_ipv6 : Bool) :
    Except String String :=
  if data.length < offset + 16 then
    .error "Not enough data to read IP address"
  else
    let addr_bytes := (data.drop offset).take 16
    if is_ipv6 || (addr_bytes.take 12).any (fun b => b ≠ 0) then
      .ok (ipv6_str addr_bytes)
    else
      .ok (ipv4_str (addr_bytes.drop 12))

/-- Embeds `bgp.BGPHeader` (the `msg_type` is kept as its raw code;
`parse_bgp_header` validates it against the `BGPMessageType` range 1..4). -/
structure BGPHeader where
  marker : List Nat
  length : Nat
  msg_type : Nat
deriving Repr, DecidableEq

/-- Embeds `bgp.BGPPathAttribute`. Unknown type codes are kept raw, as the
source stores the raw integer when the `BGPPathAttributeType` lookup fails. -/
structure BGPPathAttribute where
  flags : Nat
  type_code : Nat
  length : Nat
  value : List Nat
deriving Repr, DecidableEq

/-- Embeds `bgp.BGPUpdateMessage`. -/
structure BGPUpdateMessage where
  withdrawn_routes_length : Nat
  withdrawn_routes : List Nat
  total_path_attr_length : Nat
  path_attributes : List BGPPathAttribute
  nlri : List Nat
deriving Repr, DecidableEq

/-- Embeds `bgp_parser.parse_bgp_header`. -/
def parse_bgp_header (data : List Nat) : Except String BGPHeader := do
  if data.length < 19 then
    throw "Message too short for BGP header"
  let marker ← read_bytes data 0 16
  if marker ≠ List.replicate 16 255 then
    throw "Invalid BGP marker"
  let length ← read_uint16 data 16
  let msg_type_raw ← read_uint8 data 18
  if msg_type_raw < 1 ∨ 4 < msg_type_raw then
    throw "Invalid BGP message type"
  pure { marker := marker, length := length, msg_type := msg_type_raw }

/-- Embeds the `while` loop of `bgp_parser.parse_path_attributes` (fuelled;
each iteration consumes at least three bytes). -/
def parse_path_attributes_loop (data : List Nat) (endp : Nat) :
    Nat → Nat → Except String (List BGPPathAttribute)
  | 0, _ => .error "path attribute loop fuel exhausted"
  | fuel + 1, offset =>
    if offset < endp then do
      if endp < offset + 3 then
        throw "Incomplete path attribute"
      let flags ← read_uint8 data offset
      let type_code ← read_uint8 data (offset + 1)
      let (length, value_offset) ←
        if flags &&& 16 ≠ 0 then do
          if endp < offset + 4 then
            throw "Incomplete extended length attribute"
          let l ← read_uint16 data (offset + 2)
          pure (l, offset + 4)
        else do
          let l ← read_uint8 data (offset + 2)
          pure (l, offset + 3)
      if endp < value_offset + length then
        throw "Attribute value exceeds message bounds"
      let value ← read_bytes data value_offset length
      let rest ← parse_path_attributes_loop data endp fuel (value_offset + length)
      pure ({ flags := flags, type_code := type_code, length := length,
              value := value } :: rest)
    else
      .ok []

/-- Embeds `bgp_parser.parse_path_attributes`. -/
def parse_path_attributes (data : List Nat) (start endp : Nat) :
    Except String (List BGPPathAttribute) :=
  parse_path_attributes_loop data endp (endp + 1) start

/-- Embeds `bgp_parser.parse_bgp_update_structure`. -/
def parse_bgp_update_structure (data : List Nat) :
    Except String BGPUpdateMessage := do
  let header ← parse_bgp_header data
  if header.msg_type ≠ 2 then
    throw "Expected UPDATE message"
  if data.length < header.length then
    throw "Incomplete message"
  let offset := 19
  if header.length < offset + 2 then
    throw "Message too short for withdrawn routes length"
  let withdrawn_routes_length ← read_uint16 data offset
  let offset := offset + 2
  if header.length < offset + withdrawn_routes_length then
    throw "Message too short for withdrawn routes"
  let withdrawn_routes ← read_bytes data offset withdrawn_routes_length
  let offset := offset + withdrawn_routes_length
  if header.length < offset + 2 then
    throw "Message too short for path attribute length"
  let total_path_attr_length ← read_uint16 data offset
  let offset := offset + 2
  let path_attrs_end := offset + total_path_attr_length
  if header.length < path_attrs_end then
    throw "Message too short for path attributes"
  let path_attributes ← parse_path_attributes data offset path_attrs_end
  let offset := path_attrs_end
  let nlri ← read_bytes data offset (header.length - offset)
  pure { withdrawn_routes_length := withdrawn_routes_length,
         withdrawn_routes := withdrawn_routes,
         total_path_attr_length := total_path_attr_length,
         path_attributes := path_attributes,
         nlri := nlri }

/-- Embeds `bgp_parser.parse_ipv4_prefix`: {1-byte length, ceil(len/8)
prefix bytes} zero-padded to 4 bytes, returning the rendered CIDR string
and the number of bytes consumed. -/
def parse_ipv4_prefix (data : List Nat) (offset : Nat) :
    Except String (String × Nat) := do
  if data.length ≤ offset then
    throw "No data for IPv4 prefix"
  let prefix_len ← read_uint8 data offset
  if 32 < prefix_len then
    throw "Invalid IPv4 prefix length"
  let prefix_bytes := (prefix_len + 7) / 8
  if data.length < offset + 1 + prefix_bytes then
    throw "Incomplete IPv4 prefix"
  let prefix_data ← read_bytes data (offset + 1) prefix_bytes
  let padded := prefix_data ++ List.replicate (4 - prefix_bytes) 0
  pure (ipv4_str padded ++ "/" ++ toString prefix_len, 1 + prefix_bytes)

/-- Embeds `bgp_parser.parse_ipv6_prefix`: same scheme with length up to
128 and 16-byte zero padding. -/
def parse_ipv6_prefix (data : List Nat) (offset : Nat) :
    Except String (String × Nat) := do
  if data.length ≤ offset then
    throw "No data for IPv6 prefix"
  let prefix_len ← read_uint8 data offset
  if 128 < prefix_len then
    throw "Invalid IPv6 prefix length"
  let prefix_bytes := (prefix_len + 7) / 8
  if data.length < offset + 1 + prefix_bytes then
    throw "Incomplete IPv6 prefix"
  let prefix_data ← read_bytes data (offset + 1) prefix_bytes
  let padded := prefix_data ++ List.replicate (16 - prefix_bytes) 0
  pure (ipv6_str padded ++ "/" ++ toString prefix_len, 1 + prefix_bytes)

/-- Embeds the repeated-IPv4-prefix `while` loops of the source (withdrawn
routes, NLRI, MP_REACH/MP_UNREACH IPv4 unicast), fuelled; each iteration
consumes at least one byte. -/
def parse_ipv4_prefix_loop (data : List Nat) :
    Nat → Nat → Except String (List String)
  | 0, _ => .error "IPv4 prefix loop fuel exhausted"
  | fuel + 1, offset =>
    if offset < data.length then do
      let (p, consumed) ← parse_ipv4_prefix data offset
      let rest ← parse_ipv4_prefix_loop data fuel (offset + consumed)
      pure (p :: rest)
    else
      .ok []

/-- Embeds the repeated-IPv6-prefix `while` loops of the source, fuelled. -/
def parse_ipv6_prefix_loop (data : List Nat) :
    Nat → Nat → Except String (List String)
  | 0, _ => .error "IPv6 prefix loop fuel exhausted"
  | fuel + 1, offset =>
    if offset < data.length then do
      let (p, consumed) ← parse_ipv6_prefix data offset
      let rest ← parse_ipv6_prefix_loop data fuel (offset + consumed)
      pure (p :: rest)
    else
      .ok []

/-- Embeds the AS-size heuristic inside `bgp_parser.parse_as_path`:
`remaining_bytes // count` selects 4 or 2 directly; in every other case the
source picks 4 exactly when `remaining_bytes >= count * 4` and 2 otherwise
(and 4 for an empty segment). -/
def as_size_detect (remaining_bytes segment_length : Nat) : Nat :=
  if 0 < segment_length then
    let bytes_per_as := remaining_bytes / segment_length
    if bytes_per_as = 4 then 4
    else if bytes_per_as = 2 then 2
    else if segment_length * 4 ≤ remaining_bytes then 4
    else 2
  else 4

/-- Embeds the inner `for _ in range(segment_length)` read of
`bgp_parser.parse_as_path`. -/
def read_as_numbers (value : List Nat) (as_size : Nat) :
    Nat → Nat → Except String (List Nat)
  | 0, _ => .ok []
  | n + 1, offset => do
    let a ← if as_size = 4 then read_uint32 value offset
            else read_uint16 value offset
    let rest ← read_as_numbers value as_size n (offset + as_size)
    pure (a :: rest)

/-- Embeds the segment `while` loop of `bgp_parser.parse_as_path`
(fuelled; each iteration consumes at least two bytes). Members of both
AS_SEQUENCE (2) and AS_SET (1) segments are appended to the flat output;
other segment types advance the offset without contributing. -/
def parse_as_path_loop (value : List Nat) :
    Nat → Nat → List Nat → Except String (List Nat)
  | 0, _, _ => .error "AS_PATH loop fuel exhausted"
  | fuel + 1, offset, as_path =>
    if offset < value.length then do
      if value.length < offset + 2 then
        throw "Incomplete AS_PATH segment"
      let segment_type ← read_uint8 value offset
      let segment_length ← read_uint8 value (offset + 1)
      let offset2 := offset + 2
      let as_size := as_size_detect (value.length - offset2) segment_length
      if value.length < offset2 + segment_length * as_size then
        throw "Incomplete AS_PATH segment data"
      let asns ← read_as_numbers value as_size segment_length offset2
      let as_path2 :=
        if segment_type = 2 ∨ segment_type = 1 then as_path ++ asns
        else as_path
      parse_as_path_loop value fuel (offset2 + segment_length * as_size) as_path2
    else
      .ok as_path

/-- Embeds `bgp_parser.parse_as_path`. -/
def parse_as_path (value : List Nat) : Except String (List Nat) :=
  parse_as_path_loop value (value.length + 1) 0 []

/-- Embeds the `while` loop of `bgp_parser.parse_communities`. -/
def parse_communities_loop (value : List Nat) :
    Nat → Nat → Except String (List String)
  | 0, _ => .error "communities loop fuel exhausted"
  | fuel + 1, offset =>
    if offset < value.length then do
      let as_num ← read_uint16 value offset
      let comm_value ← read_uint16 value (offset + 2)
      let rest ← parse_communities_loop value fuel (offset + 4)
      pure ((toString as_num ++ ":" ++ toString comm_value) :: rest)
    else
      .ok []

/-- Embeds `bgp_parser.parse_communities`. -/
def parse_communities (value : List Nat) : Except String (List String) :=
  if value.length % 4 ≠ 0 then
    .error "Invalid COMMUNITIES length (must be multiple of 4)"
  else
    parse_communities_loop value (value.length + 1) 0

/-- Embeds the per-entry (type, subtype) dispatch of
`bgp_parser.parse_extended_communities`, in source branch order: the OSPF
Domain ID pair (0x03, 0x0c) is tested before every other rule involving
type 0x03, and unrecognised entries fall through to the
`"Unknown-XX:hex"` arm. -/
def ext_comm_entry (value : List Nat) (offset : Nat) : Except String String := do
  let ext_type ← read_uint8 value offset
  let ext_subtype ← read_uint8 value (offset + 1)
  if ext_type = 0x03 ∧ ext_subtype = 0x0c then do
    let domain_bytes ← read_bytes value (offset + 2) 6
    let domain_id := ipv4_str (domain_bytes.drop 2)
    pure ("OSPF-Domain:" ++ domain_id)
  else if ext_type = 0x00 ∧ ext_subtype = 0x02 then do
    let as_num ← read_uint16 value (offset + 2)
    let assigned ← read_uint32 value (offset + 4)
    pure ("RT:" ++ toString as_num ++ ":" ++ toString assigned)
  else if ext_type = 0x02 ∧ ext_subtype = 0x00 then do
    let as_num ← read_uint16 value (offset + 2)
    let assigned ← read_uint32 value (offset + 4)
    pure ("RO:" ++ toString as_num ++ ":" ++ toString assigned)
  else if ext_type = 0x01 ∧ ext_subtype = 0x02 then do
    let ip_bytes ← read_bytes value (offset + 2) 4
    let assigned ← read_uint16 value (offset + 6)
    pure ("RT:" ++ ipv4_str ip_bytes ++ ":" ++ toString assigned)
  else if ext_type = 0x03 ∧ ext_subtype = 0x00 then do
    let ip_bytes ← read_bytes value (offset + 2) 4
    let assigned ← read_uint16 value (offset + 6)
    pure ("RO:" ++ ipv4_str ip_bytes ++ ":" ++ toString assigned)
  else if ext_type = 0x02 ∧ ext_subtype = 0x02 then do
    let as_num ← read_uint32 value (offset + 2)
    let assigned ← read_uint16 value (offset + 6)
    pure ("RT:" ++ toString as_num ++ ":" ++ toString assigned)
  else if ext_type = 0x0a ∧ ext_subtype = 0x02 then do
    let as_num ← read_uint32 value (offset + 2)
    let assigned ← read_uint16 value (offset + 6)
    pure ("RO:" ++ toString as_num ++ ":" ++ toString assigned)
  else if ext_type = 0x03 then do
    let opaque_value ← read_bytes value (offset + 2) 6
    pure ("Opaque:" ++ bytesHex opaque_value)
  else if ext_type = 0x06 then
    if ext_subtype = 0x00 then do
      let _flags ← read_uint8 value (offset + 2)
      let seq ← read_uint32 value (offset + 3)
      pure ("EVPN-MAC-Mobility:" ++ toString seq)
    else if ext_subtype = 0x01 then do
      let label_bytes ← read_bytes value (offset + 5) 3
      let label := (label_bytes.getD 0 0 <<< 12) ||| (label_bytes.getD 1 0 <<< 4)
        ||| (label_bytes.getD 2 0 >>> 4)
      pure ("EVPN-ESI-Label:" ++ toString label)
    else if ext_subtype = 0x02 then do
      let mac_bytes ← read_bytes value (offset + 2) 6
      pure ("EVPN-ES-Import:" ++ macColonHex mac_bytes)
    else do
      let evpn_value ← read_bytes value (offset + 2) 6
      pure ("EVPN-" ++ byteHex2 ext_subtype ++ ":" ++ bytesHex evpn_value)
  else if ext_type = 0x08 then do
    let as_num ← read_uint16 value (offset + 2)
    let assigned ← read_uint32 value (offset + 4)
    pure ("Redirect:" ++ toString as_num ++ ":" ++ toString assigned)
  else do
    let ext_value ← read_bytes value offset 8
    pure ("Unknown-" ++ byteHex2 ext_type ++ ":" ++ bytesHex ext_value)

/-- Embeds the `while` loop of `bgp_parser.parse_extended_communities`
(eight bytes per iteration). -/
def ext_comm_loop (value : List Nat) :
    Nat → Nat → Except String (List String)
  | 0, _ => .error "extended communities loop fuel exhausted"
  | fuel + 1, offset =>
    if offset < value.length then do
      let s ← ext_comm_entry value offset
      let rest ← ext_comm_loop value fuel (offset + 8)
      pure (s :: rest)
    else
      .ok []

/-- Embeds `bgp_parser.parse_extended_communities`. -/
def parse_extended_communities (value : List Nat) :
    Except String (List String) :=
  if value.length % 8 ≠ 0 then
    .error "Invalid EXTENDED_COMMUNITIES length (must be multiple of 8)"
  else
    ext_comm_loop value (value.length + 1) 0

/-- Embeds `bgp_parser.parse_route_distinguisher` (RFC4364 types 0/1/2,
hex fallback otherwise). -/
def parse_route_distinguisher (value : List Nat) (offset : Nat) :
    Except String String := do
  if value.length < offset + 8 then
    throw "Route Distinguisher too short"
  let rd_type ← read_uint16 value offset
  if rd_type = 0 then do
    let admin ← read_uint16 value (offset + 2)
    let assigned ← read_uint32 value (offset + 4)
    pure (toString admin ++ ":" ++ toString assigned)
  else if rd_type = 1 then do
    let ip_bytes ← read_bytes value (offset + 2) 4
    let assigned ← read_uint16 value (offset + 6)
    pure (ipv4_str ip_bytes ++ ":" ++ toString assigned)
  else if rd_type = 2 then do
    let admin ← read_uint32 value (offset + 2)
    let assigned ← read_uint16 value (offset + 6)
    pure (toString admin ++ ":" ++ toString assigned)
  else do
    let rd_bytes ← read_bytes value offset 8
    pure (bytesHex rd_bytes)

/-- Embeds `bgp_parser.parse_ethernet_segment_id` (10 bytes, rendered as
colon-separated hex pairs). -/
def parse_ethernet_segment_id (value : List Nat) (offset : Nat) :
    Except String String := do
  if value.length < offset + 10 then
    throw "Ethernet Segment Identifier too short"
  let esi_bytes ← read_bytes value offset 10
  pure (macColonHex esi_bytes)

/-- Embeds the `route_info` dict built by `bgp_parser.parse_evpn_nlri`:
non-Type-2 routes carry only `route_type`, the remaining keys come back as
`None` through `dict.get`, which the `Option` defaults mirror. -/
structure EvpnRouteInfo where
  route_type : Nat
  rd : Option String := none
  esi : Option String := none
  mac_address : Option String := none
  ip_address : Option String := none
deriving Repr, DecidableEq

/-- Embeds the dynamic typing of the source`s NLRI lists: an entry of
`prefixes` or `withdrawn_prefixes` is either an IP CIDR string or an EVPN
route descriptor dict. -/
inductive NlriEntry where
  | ipPrefix (s : String)
  | evpnRoute (info : EvpnRouteInfo)
deriving Repr, DecidableEq

/-- Embeds `bgp_parser.parse_evpn_nlri` (RFC7432 Section 7, Type 2
decoded in detail, other types consumed structurally). -/
def parse_evpn_nlri (value : List Nat) (offset : Nat) :
    Except String (Option EvpnRouteInfo × Nat) := do
  if value.length < offset + 2 then
    return (none, 0)
  let route_type ← read_uint8 value offset
  let length ← read_uint8 value (offset + 1)
  if value.length < offset + 2 + length then
    throw "EVPN NLRI truncated"
  let route_offset := offset + 2
  if route_type = 2 then do
    if length < 33 then
      throw "EVPN Type 2 NLRI too short"
    let rd ← parse_route_distinguisher value route_offset
    let route_offset := route_offset + 8
    let esi ← parse_ethernet_segment_id value route_offset
    let route_offset := route_offset + 10
    let route_offset := route_offset + 4
    let mac_len ← read_uint8 value route_offset
    let route_offset := route_offset + 1
    let (mac_address, route_offset) :=
      if mac_len = 48 ∧ route_offset + 6 ≤ value.length then
        (some (macColonHex ((value.drop route_offset).take 6)), route_offset + 6)
      else
        (none, route_offset)
    let ip_len ← read_uint8 value route_offset
    let route_offset := route_offset + 1
    let ip_address :=
      if ip_len = 32 ∧ route_offset + 4 ≤ value.length then
        some (ipv4_str ((value.drop route_offset).take 4))
      else if ip_len = 128 ∧ route_offset + 16 ≤ value.length then
        some (ipv6_str ((value.drop route_offset).take 16))
      else
        none
    pure (some { route_type := route_type, rd := some rd, esi := some esi,
                 mac_address := mac_address, ip_address := ip_address },
          2 + length)
  else
    pure (some { route_type := route_type }, 2 + length)

/-- Embeds the EVPN NLRI `while` loops of `parse_mp_reach_nlri` and
`parse_mp_unreach_nlri` (append the parsed descriptor, stop when zero
bytes were consumed). -/
def parse_evpn_nlri_loop (value : List Nat) :
    Nat → Nat → Except String (List NlriEntry)
  | 0, _ => .error "EVPN NLRI loop fuel exhausted"
  | fuel + 1, offset =>
    if offset < value.length then do
      let (route_info, consumed) ← parse_evpn_nlri value offset
      let here := match route_info with
        | some info => [NlriEntry.evpnRoute info]
        | none => []
      if consumed = 0 then
        pure here
      else do
        let rest ← parse_evpn_nlri_loop value fuel (offset + consumed)
        pure (here ++ rest)
    else
      .ok []

/-- Embeds `bgp_parser.parse_mp_reach_nlri` (RFC4760): AFI, SAFI,
next-hop bytes, reserved byte, then AFI/SAFI-specific NLRI. -/
def parse_mp_reach_nlri (value : List Nat) :
    Except String (Nat × Nat × Option String × List NlriEntry) := do
  if value.length < 5 then
    throw "MP_REACH_NLRI too short"
  let afi ← read_uint16 value 0
  let safi ← read_uint8 value 2
  let next_hop_len ← read_uint8 value 3
  if value.length < 4 + next_hop_len + 1 then
    throw "MP_REACH_NLRI incomplete"
  let next_hop_data ← read_bytes value 4 next_hop_len
  let next_hop : Option String :=
    if afi = 1 then
      if 4 ≤ next_hop_len then some (ipv4_str (next_hop_data.take 4)) else none
    else if afi = 2 then
      if 16 ≤ next_hop_len then some (ipv6_str (next_hop_data.take 16)) else none
    else if afi = 25 then
      if next_hop_len = 4 then some (ipv4_str (next_hop_data.take 4))
      else if next_hop_len = 16 then some (ipv6_str (next_hop_data.take 16))
      else none
    else none
  let offset := 4 + next_hop_len + 1
  let prefixes ←
    if afi = 1 ∧ safi = 1 then do
      let ps ← parse_ipv4_prefix_loop value (value.length + 1) offset
      pure (ps.map NlriEntry.ipPrefix)
    else if afi = 2 ∧ safi = 1 then do
      let ps ← parse_ipv6_prefix_loop value (value.length + 1) offset
      pure (ps.map NlriEntry.ipPrefix)
    else if afi = 25 ∧ safi = 70 then
      parse_evpn_nlri_loop value (value.length + 1) offset
    else
      pure []
  pure (afi, safi, next_hop, prefixes)

/-- Embeds `bgp_parser.parse_mp_unreach_nlri` (RFC4760): AFI, SAFI, then
AFI/SAFI-specific withdrawn NLRI. -/
def parse_mp_unreach_nlri (value : List Nat) :
    Except String (Nat × Nat × List NlriEntry) := do
  if value.length < 3 then
    throw "MP_UNREACH_NLRI too short"
  let afi ← read_uint16 value 0
  let safi ← read_uint8 value 2
  let offset := 3
  let prefixes ←
    if afi = 1 ∧ safi = 1 then do
      let ps ← parse_ipv4_prefix_loop value (value.length + 1) offset
      pure (ps.map NlriEntry.ipPrefix)
    else if afi = 2 ∧ safi = 1 then do
      let ps ← parse_ipv6_prefix_loop value (value.length + 1) offset
      pure (ps.map NlriEntry.ipPrefix)
    else if afi = 25 ∧ safi = 70 then
      parse_evpn_nlri_loop value (value.length + 1) offset
    else
      pure []
  pure (afi, safi, prefixes)

/-- Embeds `bgp.ParsedBGPUpdate`. -/
structure ParsedBGPUpdate where
  afi : Option Nat
  safi : Option Nat
  prefixes : List NlriEntry
  withdrawn_prefixes : List NlriEntry
  is_withdrawal : Bool
  origin : Option Nat
  as_path : Option (List Nat)
  next_hop : Option String
  med : Option Nat
  local_pref : Option Nat
  communities : Option (List String)
  extended_communities : Option (List String)
  evpn_route_type : Option Nat
  evpn_rd : Option String
  evpn_esi : Option String
  mac_address : Option String
deriving Repr, DecidableEq

/-- Accumulator of the path-attribute `for` loop of
`bgp_parser.parse_bgp_update`: the local variables the loop mutates. -/
structure UpdAcc where
  afi : Option Nat := none
  safi : Option Nat := none
  prefixes : List NlriEntry := []
  withdrawn_prefixes : List NlriEntry := []
  origin : Option Nat := none
  as_path : Option (List Nat) := none
  next_hop : Option String := none
  med : Option Nat := none
  local_pref : Option Nat := none
  communities : Option (List String) := none
  extended_communities : Option (List String) := none
  evpn_route_type : Option Nat := none
  evpn_rd : Option String := none
  evpn_esi : Option String := none
  mac_address : Option String := none
  has_mp_unreach : Bool := false
deriving Repr, DecidableEq

/-- Copies the EVPN quartet out of the first route descriptor of an NLRI
list, as the MP_REACH/MP_UNREACH branches of `parse_bgp_update` do with
`isinstance(first_route, dict)` and `dict.get`. -/
def set_evpn_fields (acc : UpdAcc) (entries : List NlriEntry) : UpdAcc :=
  match entries.head? with
  | some (NlriEntry.evpnRoute info) =>
    { acc with evpn_route_type := some info.route_type,
               evpn_rd := info.rd, evpn_esi := info.esi,
               mac_address := info.mac_address }
  | _ => acc

/-- Embeds one iteration body of the path-attribute `for` loop of
`bgp_parser.parse_bgp_update` (the code inside its `try`). -/
def attr_step (acc : UpdAcc) (attr : BGPPathAttribute) :
    Except String UpdAcc :=
  if attr.type_code = 1 then do
    let o ← read_uint8 attr.value 0
    pure { acc with origin := some o }
  else if attr.type_code = 2 then do
    let p ← parse_as_path attr.value
    pure { acc with as_path := some p }
  else if attr.type_code = 3 then
    if 4 ≤ attr.value.length then
      pure { acc with next_hop := some (ipv4_str (attr.value.take 4)) }
    else
      pure acc
  else if attr.type_code = 4 then do
    let m ← read_uint32 attr.value 0
    pure { acc with med := some m }
  else if attr.type_code = 5 then do
    let l ← read_uint32 attr.value 0
    pure { acc with local_pref := some l }
  else if attr.type_code = 8 then do
    let cs ← parse_communities attr.value
    pure { acc with communities := some cs }
  else if attr.type_code = 16 then do
    let ecs ← parse_extended_communities attr.value
    pure { acc with extended_communities := some ecs }
  else if attr.type_code = 14 then do
    let (afi, safi, mp_next_hop, mp_prefixes) ← parse_mp_reach_nlri attr.value
    let acc := { acc with afi := some afi, safi := some safi }
    let acc := match mp_next_hop with
      | some nh => { acc with next_hop := some nh }
      | none => acc
    let acc :=
      if afi = 25 ∧ safi = 70 ∧ mp_prefixes ≠ [] then
        set_evpn_fields acc mp_prefixes
      else acc
    pure { acc with prefixes := acc.prefixes ++ mp_prefixes }
  else if attr.type_code = 15 then do
    let (afi, safi, mp_withdrawn) ← parse_mp_unreach_nlri attr.value
    let acc := { acc with afi := some afi, safi := some safi,
                          has_mp_unreach := true }
    let acc :=
      if afi = 25 ∧ safi = 70 ∧ mp_withdrawn ≠ [] then
        set_evpn_fields acc mp_withdrawn
      else acc
    pure { acc with withdrawn_prefixes := acc.withdrawn_prefixes ++ mp_withdrawn }
  else
    pure acc

/-- Embeds the `try/except Exception: continue` around each attribute:
a failing attribute is skipped and the accumulator kept unchanged. -/
def apply_attr (acc : UpdAcc) (attr : BGPPathAttribute) : UpdAcc :=
  match attr_step acc attr with
  | .ok acc2 => acc2
  | .error _ => acc

/-- Embeds `bgp_parser.parse_bgp_update` up to (and including) the
path-attribute loop: UPDATE structure, standard withdrawn routes, and the
fold of the attribute loop; the trailing NLRI parse and the final
assembly live in `parse_bgp_update`. -/
def bgp_update_attr_acc (data : List Nat) :
    Except String (BGPUpdateMessage × UpdAcc) := do
  let update ← parse_bgp_update_structure data
  let wd ← parse_ipv4_prefix_loop update.withdrawn_routes
    (update.withdrawn_routes.length + 1) 0
  let acc0 : UpdAcc := { withdrawn_prefixes := wd.map NlriEntry.ipPrefix }
  pure (update, update.path_attributes.foldl apply_attr acc0)

/-- Embeds `bgp_parser.parse_bgp_update`: after the attribute fold, a
non-empty trailing NLRI is parsed as IPv4 unicast (setting AFI=1/SAFI=1),
and `is_withdrawal` is the source`s disjunction: some withdrawn prefixes
exist, or an MP_UNREACH_NLRI attribute was parsed and no announced
prefixes exist. -/
def parse_bgp_update (data : List Nat) : Except String ParsedBGPUpdate := do
  let (update, acc) ← bgp_update_attr_acc data
  let (afi, safi, prefixes) ←
    if 0 < update.nlri.length then do
      let ps ← parse_ipv4_prefix_loop update.nlri (update.nlri.length + 1) 0
      pure (some 1, some 1, acc.prefixes ++ ps.map NlriEntry.ipPrefix)
    else
      pure (acc.afi, acc.safi, acc.prefixes)
  let is_withdrawal :=
    !acc.withdrawn_prefixes.isEmpty ||
      (acc.has_mp_unreach && prefixes.isEmpty)
  pure { afi := afi, safi := safi, prefixes := prefixes,
         withdrawn_prefixes := acc.withdrawn_prefixes,
         is_withdrawal := is_withdrawal,
         origin := acc.origin, as_path := acc.as_path,
         next_hop := acc.next_hop, med := acc.med,
         local_pref := acc.local_pref, communities := acc.communities,
         extended_communities := acc.extended_communities,
         evpn_route_type := acc.evpn_route_type, evpn_rd := acc.evpn_rd,
         evpn_esi := acc.evpn_esi, mac_address := acc.mac_address }

/-- Concrete BGP UPDATE: withdrawn routes `08 0a` (10.0.0.0/8) and
trailing NLRI `08 0b` (11.0.0.0/8), no path attributes. -/
def updBothBytes : List Nat :=
  List.replicate 16 255 ++ [0, 27, 2] ++ [0, 2, 8, 10] ++ [0, 0] ++ [8, 11]

/-- Concrete EVPN Type-2 MAC/IP body: RD 65001:100, the test ESI, MAC
aa:bb:cc:dd:ee:ff, IPv4 192.168.1.10. -/
def evpnT2Body : List Nat :=
  [0, 0, 0xfd, 0xe9, 0, 0, 0, 100] ++
  [0, 0x11, 0x22, 0x33, 0x44, 0x55, 0x66, 0x77, 0x88, 0x99] ++
  [0, 0, 0, 0] ++ [48] ++ [0xaa, 0xbb, 0xcc, 0xdd, 0xee, 0xff] ++
  [32] ++ [192, 168, 1, 10]

/-- Concrete MP_REACH_NLRI value: AFI 25 (L2VPN), SAFI 70 (EVPN), IPv4
next hop 192.0.2.254, one EVPN Type-2 NLRI. -/
def evpnMpReachValue : List Nat :=
  [0, 25, 70, 4, 192, 0, 2, 254, 0] ++ [2, 34] ++ evpnT2Body

/-- Concrete BGP UPDATE carrying only the EVPN MP_REACH_NLRI attribute. -/
def evpnUpdateBytes : List Nat :=
  List.replicate 16 255 ++ [0, 71, 2] ++ [0, 0] ++ [0, 48] ++
  ([0x80, 14, 45] ++ evpnMpReachValue)

/-- Embeds `bmp.BMPMessageType` (RFC7854 message types 0..5). -/
inductive BMPMessageType where
  | route_monitoring
  | statistics_report
  | peer_down_notification
  | peer_up_notification
  | initiation
  | termination
deriving Repr, DecidableEq

/-- Embeds the `BMPMessageType(raw)` IntEnum lookup: `some` on 0..5,
`none` (a `ValueError` in the source) otherwise. -/
def bmpMessageTypeOfNat : Nat → Option BMPMessageType
  | 0 => some .route_monitoring
  | 1 => some .statistics_report
  | 2 => some .peer_down_notification
  | 3 => some .peer_up_notification
  | 4 => some .initiation
  | 5 => some .termination
  | _ => none

/-- Embeds `bmp.BMPHeader` (6 bytes: version, 4-byte length, type). -/
structure BMPHeader where
  version : Nat
  length : Nat
  msg_type : BMPMessageType
deriving Repr, DecidableEq

/-- Embeds `bmp_parser.parse_bmp_header`: at least 6 bytes, version must
be 3, length at least 6, type must be a known BMP message type. -/
def parse_bmp_header (data : List Nat) : Except String BMPHeader := do
  if data.length < 6 then
    throw "Message too short for BMP header"
  let version ← read_uint8 data 0
  if version ≠ 3 then
    throw ("Invalid BMP version: expected 3, got " ++ toString version)
  let length ← read_uint32 data 1
  if length < 6 then
    throw "Invalid message length"
  let msg_type_raw ← read_uint8 data 5
  match bmpMessageTypeOfNat msg_type_raw with
  | none => throw "Unknown message type"
  | some t => pure { version := version, length := length, msg_type := t }

/-- Embeds `bmp.BMPPerPeerHeader` (42 bytes). The peer type is kept raw
after the 0..3 range check. -/
structure BMPPerPeerHeader where
  peer_type : Nat
  peer_flags : Nat
  peer_distinguisher : List Nat
  peer_address : String
  peer_asn : Nat
  peer_bgp_id : String
  timestamp_sec : Nat
  timestamp_usec : Nat
deriving Repr, DecidableEq

/-- Embeds `bmp_parser.parse_per_peer_header`. -/
def parse_per_peer_header (data : List Nat) (offset : Nat) :
    Except String BMPPerPeerHeader := do
  if data.length < offset + 42 then
    throw "Message too short for Per-Peer Header"
  let peer_type_raw ← read_uint8 data offset
  let peer_flags ← read_uint8 data (offset + 1)
  if 3 < peer_type_raw then
    throw "Invalid peer type"
  let peer_distinguisher ← read_bytes data (offset + 2) 8
  let is_ipv6 := peer_flags &&& 0x80 ≠ 0
  let peer_address ← read_ip_address data (offset + 10) is_ipv6
  let peer_asn ← read_uint32 data (offset + 26)
  let peer_bgp_id ← read_ipv4_address data (offset + 30)
  let timestamp_sec ← read_uint32 data (offset + 34)
  let timestamp_usec ← read_uint32 data (offset + 38)
  pure { peer_type := peer_type_raw, peer_flags := peer_flags,
         peer_distinguisher := peer_distinguisher,
         peer_address := peer_address, peer_asn := peer_asn,
         peer_bgp_id := peer_bgp_id, timestamp_sec := timestamp_sec,
         timestamp_usec := timestamp_usec }

/-- Embeds `bmp.BMPInfoTLV`. -/
structure BMPInfoTLV where
  info_type : Nat
  info_length : Nat
  info_value : List Nat
deriving Repr, DecidableEq

/-- Embeds the `while` loop of `bmp_parser.parse_information_tlvs`
(fuelled; each iteration consumes at least four bytes). -/
def parse_information_tlvs_loop (data : List Nat) (endp : Nat) :
    Nat → Nat → Except String (List BMPInfoTLV)
  | 0, _ => .error "information TLV loop fuel exhausted"
  | fuel + 1, pos =>
    if pos < endp then do
      if endp < pos + 4 then
        throw "Incomplete TLV header"
      let info_type ← read_uint16 data pos
      let info_length ← read_uint16 data (pos + 2)
      if endp < pos + 4 + info_length then
        throw "Incomplete TLV value"
      let info_value ← read_bytes data (pos + 4) info_length
      let rest ← parse_information_tlvs_loop data endp fuel (pos + 4 + info_length)
      pure ({ info_type := info_type, info_length := info_length,
              info_value := info_value } :: rest)
    else
      .ok []

/-- Embeds `bmp_parser.parse_information_tlvs`. -/
def parse_information_tlvs (data : List Nat) (offset endp : Nat) :
    Except String (List BMPInfoTLV) :=
  parse_information_tlvs_loop data endp (endp + 1) offset

/-- Embeds `bmp.BMPInitiationMessage`. -/
structure BMPInitiationMessage where
  header : BMPHeader
  information_tlvs : List BMPInfoTLV
deriving Repr, DecidableEq

/-- Embeds `bmp.BMPTerminationMessage`. -/
structure BMPTerminationMessage where
  header : BMPHeader
  information_tlvs : List BMPInfoTLV
deriving Repr, DecidableEq

/-- Embeds `bmp.BMPRouteMonitoringMessage`: the bytes after the per-peer
header are the raw BGP UPDATE PDU. -/
structure BMPRouteMonitoringMessage where
  header : BMPHeader
  per_peer_header : BMPPerPeerHeader
  bgp_update : List Nat
deriving Repr, DecidableEq

/-- Embeds `bmp.BMPStatTLV`. -/
structure BMPStatTLV where
  stat_type : Nat
  stat_length : Nat
  stat_value : Nat
deriving Repr, DecidableEq

/-- Embeds `bmp.BMPStatisticsReportMessage`. -/
structure BMPStatisticsReportMessage where
  header : BMPHeader
  per_peer_header : BMPPerPeerHeader
  stats_count : Nat
  stats_tlvs : List BMPStatTLV
deriving Repr, DecidableEq

/-- Embeds `bmp.BMPPeerDownMessage` (the reason kept raw after the 1..5
range check). -/
structure BMPPeerDownMessage where
  header : BMPHeader
  per_peer_header : BMPPerPeerHeader
  reason : Nat
  additional_data : List Nat
deriving Repr, DecidableEq

/-- Embeds `bmp.BMPPeerUpMessage`. -/
structure BMPPeerUpMessage where
  header : BMPHeader
  per_peer_header : BMPPerPeerHeader
  local_address : String
  local_port : Nat
  remote_port : Nat
  sent_open_message : List Nat
  received_open_message : List Nat
  information_tlvs : List BMPInfoTLV
deriving Repr, DecidableEq

/-- Embeds `bmp_parser.parse_initiation_message`. -/
def parse_initiation_message (data : List Nat) :
    Except String BMPInitiationMessage := do
  let header ← parse_bmp_header data
  if header.msg_type ≠ BMPMessageType.initiation then
    throw "Expected INITIATION message type"
  let tlvs ← parse_information_tlvs data 6 header.length
  pure { header := header, information_tlvs := tlvs }

/-- Embeds `bmp_parser.parse_termination_message`. -/
def parse_termination_message (data : List Nat) :
    Except String BMPTerminationMessage := do
  let header ← parse_bmp_header data
  if header.msg_type ≠ BMPMessageType.termination then
    throw "Expected TERMINATION message type"
  let tlvs ← parse_information_tlvs data 6 header.length
  pure { header := header, information_tlvs := tlvs }

/-- Embeds `bmp_parser.parse_route_monitoring_message`. -/
def parse_route_monitoring_message (data : List Nat) :
    Except String BMPRouteMonitoringMessage := do
  let header ← parse_bmp_header data
  if header.msg_type ≠ BMPMessageType.route_monitoring then
    throw "Expected ROUTE_MONITORING message type"
  let per_peer_header ← parse_per_peer_header data 6
  let bgp_update ← read_bytes data 48 (header.length - 48)
  pure { header := header, per_peer_header := per_peer_header,
         bgp_update := bgp_update }

/-- Embeds the `for _ in range(stats_count)` loop of
`bmp_parser.parse_statistics_report_message`. -/
def parse_stats_tlvs (data : List Nat) (msg_length : Nat) :
    Nat → Nat → Except String (List BMPStatTLV)
  | 0, _ => .ok []
  | n + 1, tlv_offset => do
    if msg_length < tlv_offset + 4 then
      throw "Incomplete stats TLV"
    let stat_type ← read_uint16 data tlv_offset
    let stat_length ← read_uint16 data (tlv_offset + 2)
    if msg_length < tlv_offset + 4 + stat_length then
      throw "Stats TLV value exceeds message length"
    let stat_value ←
      if stat_length = 4 then
        read_uint32 data (tlv_offset + 4)
      else if stat_length = 8 then do
        let high ← read_uint32 data (tlv_offset + 4)
        let low ← read_uint32 data (tlv_offset + 8)
        pure (high * 4294967296 + low)
      else do
        let stat_bytes ← read_bytes data (tlv_offset + 4) stat_length
        pure (stat_bytes.foldl (fun a b => 256 * a + b) 0)
    let rest ← parse_stats_tlvs data msg_length n (tlv_offset + 4 + stat_length)
    pure ({ stat_type := stat_type, stat_length := stat_length,
            stat_value := stat_value } :: rest)

/-- Embeds `bmp_parser.parse_statistics_report_message`. -/
def parse_statistics_report_message (data : List Nat) :
    Except String BMPStatisticsReportMessage := do
  let header ← parse_bmp_header data
  if header.msg_type ≠ BMPMessageType.statistics_report then
    throw "Expected STATISTICS_REPORT message type"
  let per_peer_header ← parse_per_peer_header data 6
  if data.length < 52 then
    throw "Message too short for stats count"
  let stats_count ← read_uint32 data 48
  let stats_tlvs ← parse_stats_tlvs data header.length stats_count 52
  pure { header := header, per_peer_header := per_peer_header,
         stats_count := stats_count, stats_tlvs := stats_tlvs }

/-- Embeds `bmp_parser.parse_peer_down_message`. -/
def parse_peer_down_message (data : List Nat) :
    Except String BMPPeerDownMessage := do
  let header ← parse_bmp_header data
  if header.msg_type ≠ BMPMessageType.peer_down_notification then
    throw "Expected PEER_DOWN_NOTIFICATION message type"
  let per_peer_header ← parse_per_peer_header data 6
  if data.length < 49 then
    throw "Message too short for reason code"
  let reason_raw ← read_uint8 data 48
  if reason_raw < 1 ∨ 5 < reason_raw then
    throw "Invalid peer down reason"
  let additional_data ← read_bytes data 49 (header.length - 49)
  pure { header := header, per_peer_header := per_peer_header,
         reason := reason_raw, additional_data := additional_data }

/-- Embeds `bmp_parser.parse_peer_up_message`. -/
def parse_peer_up_message (data : List Nat) :
    Except String BMPPeerUpMessage := do
  let header ← parse_bmp_header data
  if header.msg_type ≠ BMPMessageType.peer_up_notification then
    throw "Expected PEER_UP_NOTIFICATION message type"
  let per_peer_header ← parse_per_peer_header data 6
  if data.length < 68 then
    throw "Message too short for Peer Up fields"
  let is_ipv6 := per_peer_header.peer_flags &&& 0x80 ≠ 0
  let local_address ← read_ip_address data 48 is_ipv6
  let local_port ← read_uint16 data 64
  let remote_port ← read_uint16 data 66
  if data.length < 68 + 19 then
    throw "Message too short for sent OPEN message"
  let sent_open_length ← read_uint16 data (68 + 16)
  if data.length < 68 + sent_open_length then
    throw "Message too short for complete sent OPEN message"
  let sent_open_message ← read_bytes data 68 sent_open_length
  let recv_open_offset := 68 + sent_open_length
  if data.length < recv_open_offset + 19 then
    throw "Message too short for received OPEN message"
  let recv_open_length ← read_uint16 data (recv_open_offset + 16)
  if data.length < recv_open_offset + recv_open_length then
    throw "Message too short for complete received OPEN message"
  let received_open_message ← read_bytes data recv_open_offset recv_open_length
  let tlv_offset := recv_open_offset + recv_open_length
  let information_tlvs ← parse_information_tlvs data tlv_offset header.length
  pure { header := header, per_peer_header := per_peer_header,
         local_address := local_address, local_port := local_port,
         remote_port := remote_port,
         sent_open_message := sent_open_message,
         received_open_message := received_open_message,
         information_tlvs := information_tlvs }

/-- Sum of the six typed BMP messages returned by
`bmp_parser.parse_bmp_message`. -/
inductive BMPMessage where
  | initiationMsg (m : BMPInitiationMessage)
  | terminationMsg (m : BMPTerminationMessage)
  | routeMonitoringMsg (m : BMPRouteMonitoringMessage)
  | statisticsReportMsg (m : BMPStatisticsReportMessage)
  | peerDownMsg (m : BMPPeerDownMessage)
  | peerUpMsg (m : BMPPeerUpMessage)
deriving Repr, DecidableEq

/-- Embeds `bmp_parser.parse_bmp_message`: header parse, completeness
check against the advertised length, then dispatch by message type. -/
def parse_bmp_message (data : List Nat) : Except String BMPMessage := do
  let header ← parse_bmp_header data
  if data.length < header.length then
    throw "Incomplete message"
  match header.msg_type with
  | .initiation => do
    let m ← parse_initiation_message data
    pure (.initiationMsg m)
  | .termination => do
    let m ← parse_termination_message data
    pure (.terminationMsg m)
  | .route_monitoring => do
    let m ← parse_route_monitoring_message data
    pure (.routeMonitoringMsg m)
  | .statistics_report => do
    let m ← parse_statistics_report_message data
    pure (.statisticsReportMsg m)
  | .peer_down_notification => do
    let m ← parse_peer_down_message data
    pure (.peerDownMsg m)
  | .peer_up_notification => do
    let m ← parse_peer_up_message data
    pure (.peerUpMsg m)

/-- Embeds `BMPListener._determine_family`: the family string is derived
from the AFI alone (the SAFI parameter is accepted and unused, as in the
source). -/
def determine_family (afi : Option Nat) (_safi : Option Nat) : String :=
  if afi = some 1 then "ipv4_unicast"
  else if afi = some 2 then "ipv6_unicast"
  else if afi = some 25 then "evpn"
  else "unknown"

/-- Embeds the `RouteUpdate` pydantic model as the session handler fills
it in `listener._handle_route_monitoring`. The `time` field (wall clock)
is omitted. The handler passes each NLRI entry unchanged as the `prefix`
argument, so the field carries the dynamic `NlriEntry` value here; the
handler never passes `extended_communities`, so it keeps the model
default `None`. -/
structure RouteUpdateRec where
  bmp_peer_ip : String
  bmp_peer_asn : Option Nat
  bgp_peer_ip : String
  bgp_peer_asn : Option Nat
  family : String
  prefix_ : NlriEntry
  next_hop : Option String
  as_path : Option (List Nat)
  communities : Option (List String)
  extended_communities : Option (List String) := none
  med : Option Nat
  local_pref : Option Nat
  is_withdrawn : Bool
  evpn_route_type : Option Nat
  evpn_rd : Option String
  evpn_esi : Option String
  mac_address : Option String
deriving Repr, DecidableEq

/-- Embeds `listener._handle_route_monitoring`: parse the BMP route
monitoring message and the embedded BGP UPDATE, then build one record per
announced prefix (with the update`s attributes, `is_withdrawn=False`) and
one per withdrawn prefix (attributes nulled, `is_withdrawn=True`), in
that order; each record is handed to `batch_writer.add_route`. -/
def handle_route_monitoring (data : List Nat) (bmp_peer_ip : String) :
    Except String (List RouteUpdateRec) := do
  let parsed ← parse_route_monitoring_message data
  let bgp_update ← parse_bgp_update parsed.bgp_update
  let family := determine_family bgp_update.afi bgp_update.safi
  let announced := bgp_update.prefixes.map (fun p =>
    ({ bmp_peer_ip := bmp_peer_ip, bmp_peer_asn := none,
       bgp_peer_ip := parsed.per_peer_header.peer_address,
       bgp_peer_asn := some parsed.per_peer_header.peer_asn,
       family := family, prefix_ := p,
       next_hop := bgp_update.next_hop, as_path := bgp_update.as_path,
       communities := bgp_update.communities, med := bgp_update.med,
       local_pref := bgp_update.local_pref, is_withdrawn := false,
       evpn_route_type := bgp_update.evpn_route_type,
       evpn_rd := bgp_update.evpn_rd, evpn_esi := bgp_update.evpn_esi,
       mac_address := bgp_update.mac_address } : RouteUpdateRec))
  let withdrawn := bgp_update.withdrawn_prefixes.map (fun p =>
    ({ bmp_peer_ip := bmp_peer_ip, bmp_peer_asn := none,
       bgp_peer_ip := parsed.per_peer_header.peer_address,
       bgp_peer_asn := some parsed.per_peer_header.peer_asn,
       family := family, prefix_ := p,
       next_hop := none, as_path := none,
       communities := none, med := none,
       local_pref := none, is_withdrawn := true,
       evpn_route_type := none, evpn_rd := none, evpn_esi := none,
       mac_address := none } : RouteUpdateRec))
  pure (announced ++ withdrawn)

/-- Modelled from the spec: the listener helper `_extract_prefix_string`
exercised by `tests/unit/test_listener_evpn.py` is absent from
`listener.py`; per the spec (section 4.D) an EVPN record`s prefix is
`ip_address/32` or `ip_address/128` when an IP is present and null
otherwise (MAC-only), while an IP-family CIDR string passes through. An
IPv6 address is recognised by containing a colon. -/
def extract_prefix_string : NlriEntry → Option String
  | NlriEntry.ipPrefix s => some s
  | NlriEntry.evpnRoute info =>
    match info.ip_address with
    | none => none
    | some ip =>
      if ip.data.any (fun c => c = ':') then some (ip ++ "/128")
      else some (ip ++ "/32")

/-- Embeds the 18-column record tuple built by
`batch_writer.BatchWriter.add_route` for the bulk copy (the `time` column
is omitted as in `RouteUpdateRec`; `str()` of an address is the identity
here since addresses are already strings). -/
structure RouteTuple where
  bmp_peer_ip : String
  bmp_peer_asn : Option Nat
  bgp_peer_ip : String
  bgp_peer_asn : Option Nat
  family : String
  prefix_ : NlriEntry
  next_hop : Option String
  as_path : Option (List Nat)
  communities : Option (List String)
  extended_communities : Option (List String)
  med : Option Nat
  local_pref : Option Nat
  is_withdrawn : Bool
  evpn_route_type : Option Nat
  evpn_rd : Option String
  evpn_esi : Option String
  mac_address : Option String
deriving Repr, DecidableEq

/-- Embeds the `route_tuple = (...)` conversion in
`BatchWriter.add_route`. -/
def route_to_tuple (r : RouteUpdateRec) : RouteTuple :=
  { bmp_peer_ip := r.bmp_peer_ip, bmp_peer_asn := r.bmp_peer_asn,
    bgp_peer_ip := r.bgp_peer_ip, bgp_peer_asn := r.bgp_peer_asn,
    family := r.family, prefix_ := r.prefix_, next_hop := r.next_hop,
    as_path := r.as_path, communities := r.communities,
    extended_communities := r.extended_communities, med := r.med,
    local_pref := r.local_pref, is_withdrawn := r.is_withdrawn,
    evpn_route_type := r.evpn_route_type, evpn_rd := r.evpn_rd,
    evpn_esi := r.evpn_esi, mac_address := r.mac_address }

/-- Embeds the mutable state of `batch_writer.BatchWriter` relevant to
buffering (statistics counters and timers are not modelled). -/
structure BatchWriter where
  is_running : Bool
  batch : List RouteTuple
deriving Repr, DecidableEq

/-- Embeds `BatchWriter.add_route`: refuse when not running, otherwise
append the converted tuple to the buffer. (The size-triggered flush call
is exercised separately through `BatchWriter.flush`.) -/
def BatchWriter.add_route (bw : BatchWriter) (route : RouteUpdateRec) :
    Except String BatchWriter :=
  if !bw.is_running then
    .error "Batch writer is not running. Call start() first."
  else
    .ok { bw with batch := bw.batch ++ [route_to_tuple route] }

/-- Database calls issued by `BatchWriter.flush`: one
`copy_records_to_table` of the whole batch, and one
`SELECT update_route_state(...)` per record. -/
inductive DBOp where
  | copyRows (rows : List RouteTuple)
  | updateRouteState (row : RouteTuple)
deriving Repr, DecidableEq

/-- Sequential execution of database calls against a store that may fail
any single call (`fail op = some e` mirrors that call raising `e`):
returns the calls actually issued, stopping at the first failure. -/
def exec_ops (fail : DBOp → Option String) :
    List DBOp → List DBOp × Except String Unit
  | [] => ([], .ok ())
  | op :: rest =>
    match fail op with
    | some e => ([op], .error e)
    | none =>
      let (tr, r) := exec_ops fail rest
      (op :: tr, r)

/-- Embeds `BatchWriter.flush`: return immediately on an empty buffer;
otherwise issue one bulk copy of the whole batch followed by one
`update_route_state` call per record in insertion order, clear the buffer
in the `finally` block whether or not a call failed, and propagate the
failure. Returns (writer afterwards, calls issued, outcome). -/
def BatchWriter.flush (fail : DBOp → Option String) (bw : BatchWriter) :
    BatchWriter × List DBOp × Except String Unit :=
  if bw.batch.length = 0 then
    (bw, [], .ok ())
  else
    let r := exec_ops fail
      (DBOp.copyRows bw.batch :: bw.batch.map DBOp.updateRouteState)
    ({ bw with batch := [] }, r.1, r.2)

/-- Embeds `migrations.Migration`: a migration file with its version,
name, SHA-256 checksum of the file content (abstract here) and SQL body. -/
structure MigrationFile where
  version : Nat
  name : String
  checksum : String
  sql : String
deriving Repr, DecidableEq

/-- Embeds the pending-selection loop of
`MigrationRunner.get_pending_migrations`: a file whose version is not
recorded is pending; a recorded version with a different checksum raises
the checksum-mismatch error; a recorded version with the same checksum is
skipped. `applied` is the `(version, checksum)` content of
`schema_migrations`. -/
def find_pending (applied : List (Nat × String)) :
    List MigrationFile → Except String (List MigrationFile)
  | [] => .ok []
  | m :: rest =>
    match applied.lookup m.version with
    | none =>
      match find_pending applied rest with
      | .ok p => .ok (m :: p)
      | .error e => .error e
    | some c =>
      if m.checksum ≠ c then
        .error "Migration checksum mismatch - file may have been tampered with"
      else
        find_pending applied rest

/-- Embeds `MigrationRunner.get_pending_migrations`: on a fresh database
(no `schema_migrations` table) every file is pending. -/
def get_pending_migrations (files : List MigrationFile)
    (applied : List (Nat × String)) (table_exists : Bool) :
    Except String (List MigrationFile) :=
  if !table_exists then .ok files else find_pending applied files

/-- Embeds `MigrationRunner.apply_migrations`: compute the pending list
first (which raises on any checksum mismatch before anything runs), then
execute each pending file and insert its `schema_migrations` row.
Returns (files executed, `schema_migrations` rows afterwards, outcome
carrying the applied count). -/
def apply_migrations (files : List MigrationFile)
    (applied : List (Nat × String)) (table_exists : Bool) :
    List MigrationFile × List (Nat × String) × Except String Nat :=
  match get_pending_migrations files applied table_exists with
  | .error e => ([], applied, .error e)
  | .ok pending =>
    (pending, applied ++ pending.map (fun m => (m.version, m.checksum)),
     .ok pending.length)

/-- Concrete 42-byte per-peer header: global instance, IPv4-mapped peer
address 10.0.0.1, peer ASN 65001, BGP ID 192.0.2.1, zero timestamps. -/
def perPeerBytes : List Nat :=
  [0, 0] ++ List.replicate 8 0 ++ (List.replicate 12 0 ++ [10, 0, 0, 1]) ++
  [0, 0, 0xfd, 0xe9] ++ [192, 0, 2, 1] ++ [0, 0, 0, 0] ++ [0, 0, 0, 0]

/-- Concrete BMP route monitoring message wrapping `updBothBytes`. -/
def bmpRMBoth : List Nat := [3, 0, 0, 0, 75, 0] ++ perPeerBytes ++ updBothBytes

/-- Concrete BMP route monitoring message wrapping `evpnUpdateBytes`. -/
def bmpRMEvpn : List Nat := [3, 0, 0, 0, 119, 0] ++ perPeerBytes ++ evpnUpdateBytes

/-- Concrete EVPN Type-2 route descriptor parsed out of `evpnT2Body`. -/
def evpnT2Info : EvpnRouteInfo :=
  { route_type := 2, rd := some "65001:100",
    esi := some "00:11:22:33:44:55:66:77:88:99",
    mac_address := some "aa:bb:cc:dd:ee:ff",
    ip_address := some "192.168.1.10" }

/-- Inversion of a successful `Except` bind. -/
theorem except_bind_ok {α β : Type} {e : Except String α}
    {f : α → Except String β} {b : β} (h : (e >>= f) = Except.ok b) :
    ∃ a, e = Except.ok a ∧ f a = Except.ok b := by
  cases e with
  | error msg => simp [Bind.bind, Except.bind] at h
  | ok a => exact ⟨a, rfl, by simpa [Bind.bind, Except.bind] using h⟩

/-- C1: the claimed biconditional "is_withdrawal iff (some prefix is
withdrawn) and no announcements exist" fails on the code: the UPDATE
`updBothBytes` withdraws 10.0.0.0/8 and announces 11.0.0.0/8, and the
parser still sets `is_withdrawal = true`. -/
theorem C1_counterexample :
    ¬ (∀ data u, parse_bgp_update data = Except.ok u →
        (u.is_withdrawal = true ↔
          u.withdrawn_prefixes ≠ [] ∧ u.prefixes = [])) := by
  intro h
  have h2 := (h updBothBytes _ rfl).mp rfl
  exact absurd h2.2 (by decide)

/-- C1 (amended): `is_withdrawal` is true iff some prefix appears in the
standard withdrawn routes or in MP_UNREACH_NLRI, OR an MP_UNREACH_NLRI
attribute was parsed and the update contains no announced prefixes. -/
theorem C1_is_withdrawal_amended :
    ∀ data update acc u,
      bgp_update_attr_acc data = Except.ok (update, acc) →
      parse_bgp_update data = Except.ok u →
      u.is_withdrawal =
        (!u.withdrawn_prefixes.isEmpty ||
          (acc.has_mp_unreach && u.prefixes.isEmpty)) := by
  intro data update acc u h1 h2
  unfold parse_bgp_update at h2
  rw [h1] at h2
  simp only [Bind.bind, Except.bind] at h2
  by_cases hn : 0 < update.nlri.length
  · rw [if_pos hn] at h2
    cases hps : parse_ipv4_prefix_loop update.nlri (update.nlri.length + 1) 0 with
    | error msg => rw [hps] at h2; cases h2
    | ok ps =>
      rw [hps] at h2
      simp only [Except.bind, Pure.pure, Except.pure, Except.ok.injEq] at h2
      subst h2
      rfl
  · rw [if_neg hn] at h2
    simp only [Pure.pure, Except.pure, Except.ok.injEq] at h2
    subst h2
    rfl

/-- C1 (amended) witness at `updBothBytes`: the hypotheses hold
concretely and the flag equation evaluates on both sides. -/
theorem C1_is_withdrawal_amended_witness :
    ∃ update acc u,
      bgp_update_attr_acc updBothBytes = Except.ok (update, acc) ∧
      parse_bgp_update updBothBytes = Except.ok u ∧
      u.is_withdrawal =
        (!u.withdrawn_prefixes.isEmpty ||
          (acc.has_mp_unreach && u.prefixes.isEmpty)) :=
  ⟨_, _, _, rfl, rfl, C1_is_withdrawal_amended updBothBytes _ _ _ rfl rfl⟩

set_option maxRecDepth 40000 in
/-- C2: on the EVPN route monitoring message `bmpRMEvpn` the session
handler emits a record whose `prefix` is the raw EVPN route descriptor,
not the `ip_address/32` string that the spec (and the unit tests of the
missing `_extract_prefix_string` helper) require. -/
theorem C2_evpn_prefix_raw :
    (handle_route_monitoring bmpRMEvpn "203.0.113.7").map
        (fun rs => rs.map (fun r => r.prefix_)) =
      Except.ok [NlriEntry.evpnRoute evpnT2Info] ∧
    extract_prefix_string (NlriEntry.evpnRoute evpnT2Info) =
      some "192.168.1.10/32" ∧
    NlriEntry.evpnRoute evpnT2Info ≠ NlriEntry.ipPrefix "192.168.1.10/32" :=
  ⟨rfl, rfl, by decide⟩

/-- Success case of `parse_ipv4_prefix`: with a readable length byte L at
most 32 and all prefix bytes present, the parse returns the rendered
zero-padded dotted-quad with `/L` and consumes 1 + ceil(L/8) bytes. -/
theorem parse_ipv4_prefix_ok :
    ∀ (data : List Nat) (offset L : Nat),
      read_uint8 data offset = Except.ok L → L ≤ 32 →
      offset + 1 + (L + 7) / 8 ≤ data.length →
      parse_ipv4_prefix data offset =
        Except.ok (ipv4_str (((data.drop (offset + 1)).take ((L + 7) / 8))
            ++ List.replicate (4 - (L + 7) / 8) 0) ++ "/" ++ toString L,
          1 + (L + 7) / 8) := by
  intro data offset L h hle hbytes
  rw [read_uint8] at h
  split at h
  · cases h
  · next hlen =>
    injection h with hL
    subst hL
    have c1 : ¬ data.length ≤ offset := by omega
    have c2 : ¬ 32 < data.getD offset 0 := by omega
    have c3 : ¬ data.length < offset + 1 + (data.getD offset 0 + 7) / 8 := by
      omega
    simp only [List.getD_eq_getElem?_getD] at c2 c3
    simp [ parse_ipv4_prefix, read_uint8, read_bytes, Bind.bind, Except.bind,
      Pure.pure, Except.pure, c1, c2, c3, hlen]

/-- Failure case of `parse_ipv4_prefix`: a length byte above 32 fails. -/
theorem parse_ipv4_prefix_bad_len :
    ∀ (data : List Nat) (offset L : Nat),
      read_uint8 data offset = Except.ok L → 32 < L →
      parse_ipv4_prefix data offset = Except.error "Invalid IPv4 prefix length" := by
  intro data offset L h hgt
  rw [read_uint8] at h
  split at h
  · cases h
  · next hlen =>
    injection h with hL
    subst hL
    have c1 : ¬ data.length ≤ offset := by omega
    simp only [List.getD_eq_getElem?_getD] at hgt
    simp [ parse_ipv4_prefix, read_uint8, read_bytes, Bind.bind, Except.bind,
      Pure.pure, Except.pure, c1, hlen, hgt]

/-- Failure case of `parse_ipv4_prefix`: missing prefix bytes fail. -/
theorem parse_ipv4_prefix_truncated :
    ∀ (data : List Nat) (offset L : Nat),
      read_uint8 data offset = Except.ok L → L ≤ 32 →
      data.length < offset + 1 + (L + 7) / 8 →
      parse_ipv4_prefix data offset = Except.error "Incomplete IPv4 prefix" := by
  intro data offset L h hle hshort
  rw [read_uint8] at h
  split at h
  · cases h
  · next hlen =>
    injection h with hL
    subst hL
    have c1 : ¬ data.length ≤ offset := by omega
    have c2 : ¬ 32 < data.getD offset 0 := by omega
    simp only [List.getD_eq_getElem?_getD] at c2 hshort
    simp [ parse_ipv4_prefix, read_uint8, read_bytes, Bind.bind, Except.bind,
      Pure.pure, Except.pure, c1, c2, hlen, hshort]

/-- Success case of `parse_ipv6_prefix`, as `parse_ipv4_prefix_ok` with
the 128-bit bound and 16-byte padding. -/
theorem parse_ipv6_prefix_ok :
    ∀ (data : List Nat) (offset L : Nat),
      read_uint8 data offset = Except.ok L → L ≤ 128 →
      offset + 1 + (L + 7) / 8 ≤ data.length →
      parse_ipv6_prefix data offset =
        Except.ok (ipv6_str (((data.drop (offset + 1)).take ((L + 7) / 8))
            ++ List.replicate (16 - (L + 7) / 8) 0) ++ "/" ++ toString L,
          1 + (L + 7) / 8) := by
  intro data offset L h hle hbytes
  rw [read_uint8] at h
  split at h
  · cases h
  · next hlen =>
    injection h with hL
    subst hL
    have c1 : ¬ data.length ≤ offset := by omega
    have c2 : ¬ 128 < data.getD offset 0 := by omega
    have c3 : ¬ data.length < offset + 1 + (data.getD offset 0 + 7) / 8 := by
      omega
    simp only [List.getD_eq_getElem?_getD] at c2 c3
    simp [ parse_ipv6_prefix, read_uint8, read_bytes, Bind.bind, Except.bind,
      Pure.pure, Except.pure, c1, c2, c3, hlen]

/-- Failure case of `parse_ipv6_prefix`: a length byte above 128 fails. -/
theorem parse_ipv6_prefix_bad_len :
    ∀ (data : List Nat) (offset L : Nat),
      read_uint8 data offset = Except.ok L → 128 < L →
      parse_ipv6_prefix data offset = Except.error "Invalid IPv6 prefix length" := by
  intro data offset L h hgt
  rw [read_uint8] at h
  split at h
  · cases h
  · next hlen =>
    injection h with hL
    subst hL
    have c1 : ¬ data.length ≤ offset := by omega
    simp only [List.getD_eq_getElem?_getD] at hgt
    simp [ parse_ipv6_prefix, read_uint8, read_bytes, Bind.bind, Except.bind,
      Pure.pure, Except.pure, c1, hlen, hgt]

/-- Failure case of `parse_ipv6_prefix`: missing prefix bytes fail. -/
theorem parse_ipv6_prefix_truncated :
    ∀ (data : List Nat) (offset L : Nat),
      read_uint8 data offset = Except.ok L → L ≤ 128 →
      data.length < offset + 1 + (L + 7) / 8 →
      parse_ipv6_prefix data offset = Except.error "Incomplete IPv6 prefix" := by
  intro data offset L h hle hshort
  rw [read_uint8] at h
  split at h
  · cases h
  · next hlen =>
    injection h with hL
    subst hL
    have c1 : ¬ data.length ≤ offset := by omega
    have c2 : ¬ 128 < data.getD offset 0 := by omega
    simp only [List.getD_eq_getElem?_getD] at c2 hshort
    simp [ parse_ipv6_prefix, read_uint8, read_bytes, Bind.bind, Except.bind,
      Pure.pure, Except.pure, c1, c2, hlen, hshort]

/-- C6: the BGP prefix NLRI parsers return the rendered `address/L`
string consuming exactly 1 + ceil(L/8) bytes, fail on a length over the
family maximum or on missing prefix bytes, and produce the spec`s
concrete outcomes on `18 c0 a8 01` and `00`. -/
theorem C6_prefix_nlri :
    (∀ (data : List Nat) (offset L : Nat),
      read_uint8 data offset = Except.ok L → L ≤ 32 →
      offset + 1 + (L + 7) / 8 ≤ data.length →
      parse_ipv4_prefix data offset =
        Except.ok (ipv4_str (((data.drop (offset + 1)).take ((L + 7) / 8))
            ++ List.replicate (4 - (L + 7) / 8) 0) ++ "/" ++ toString L,
          1 + (L + 7) / 8)) ∧
    (∀ (data : List Nat) (offset L : Nat),
      read_uint8 data offset = Except.ok L → 32 < L →
      ∃ e, parse_ipv4_prefix data offset = Except.error e) ∧
    (∀ (data : List Nat) (offset L : Nat),
      read_uint8 data offset = Except.ok L → L ≤ 32 →
      data.length < offset + 1 + (L + 7) / 8 →
      ∃ e, parse_ipv4_prefix data offset = Except.error e) ∧
    (∀ (data : List Nat) (offset L : Nat),
      read_uint8 data offset = Except.ok L → L ≤ 128 →
      offset + 1 + (L + 7) / 8 ≤ data.length →
      parse_ipv6_prefix data offset =
        Except.ok (ipv6_str (((data.drop (offset + 1)).take ((L + 7) / 8))
            ++ List.replicate (16 - (L + 7) / 8) 0) ++ "/" ++ toString L,
          1 + (L + 7) / 8)) ∧
    (∀ (data : List Nat) (offset L : Nat),
      read_uint8 data offset = Except.ok L → 128 < L →
      ∃ e, parse_ipv6_prefix data offset = Except.error e) ∧
    (∀ (data : List Nat) (offset L : Nat),
      read_uint8 data offset = Except.ok L → L ≤ 128 →
      data.length < offset + 1 + (L + 7) / 8 →
      ∃ e, parse_ipv6_prefix data offset = Except.error e) ∧
    parse_ipv4_prefix [0x18, 0xc0, 0xa8, 0x01] 0 =
      Except.ok ("192.168.1.0/24", 4) ∧
    parse_ipv4_prefix [0] 0 = Except.ok ("0.0.0.0/0", 1) :=
  ⟨parse_ipv4_prefix_ok,
   fun data offset L h hgt => ⟨_, parse_ipv4_prefix_bad_len data offset L h hgt⟩,
   fun data offset L h hle hshort =>
     ⟨_, parse_ipv4_prefix_truncated data offset L h hle hshort⟩,
   parse_ipv6_prefix_ok,
   fun data offset L h hgt => ⟨_, parse_ipv6_prefix_bad_len data offset L h hgt⟩,
   fun data offset L h hle hshort =>
     ⟨_, parse_ipv6_prefix_truncated data offset L h hle hshort⟩,
   rfl, rfl⟩

/-- C6 witness: the universally quantified arms applied at concrete
buffers (a /16 success, an invalid length 33, a truncated /24, an IPv6
/32 success, and a truncated IPv6 /128). -/
theorem C6_prefix_nlri_witness :
    parse_ipv4_prefix [16, 10, 32] 0 =
      Except.ok (ipv4_str ([10, 32] ++ List.replicate 2 0) ++ "/" ++ toString 16, 3) ∧
    (∃ e, parse_ipv4_prefix [33, 0, 0, 0, 0] 0 = Except.error e) ∧
    (∃ e, parse_ipv4_prefix [24, 192] 0 = Except.error e) ∧
    parse_ipv6_prefix [32, 0x20, 0x01, 0x0d, 0xb8] 0 =
      Except.ok (ipv6_str ([0x20, 0x01, 0x0d, 0xb8] ++ List.replicate 12 0)
        ++ "/" ++ toString 32, 5) ∧
    (∃ e, parse_ipv6_prefix [128, 0x20] 0 = Except.error e) :=
  ⟨C6_prefix_nlri.1 [16, 10, 32] 0 16 rfl (by decide) (by decide),
   C6_prefix_nlri.2.1 [33, 0, 0, 0, 0] 0 33 rfl (by decide),
   C6_prefix_nlri.2.2.1 [24, 192] 0 24 rfl (by decide) (by decide),
   C6_prefix_nlri.2.2.2.1 [32, 0x20, 0x01, 0x0d, 0xb8] 0 32 rfl (by decide)
     (by decide),
   C6_prefix_nlri.2.2.2.2.2.1 [128, 0x20] 0 128 rfl (by decide) (by decide)⟩

/-- Emission logic of the route-monitoring handler: one record per
announced prefix followed by one record per withdrawn prefix, the first
block with `is_withdrawn = false` and the rest with `is_withdrawn = true`
(record construction is total in this embedding; the pydantic validation
of the `prefix` field is the subject of the EVPN record theorems). -/
theorem handler_record_count :
    ∀ data peer parsed bgp recs,
      parse_route_monitoring_message data = Except.ok parsed →
      parse_bgp_update parsed.bgp_update = Except.ok bgp →
      handle_route_monitoring data peer = Except.ok recs →
      recs.length = bgp.prefixes.length + bgp.withdrawn_prefixes.length ∧
      (∀ r ∈ recs.take bgp.prefixes.length, r.is_withdrawn = false) ∧
      (∀ r ∈ recs.drop bgp.prefixes.length, r.is_withdrawn = true) := by
  intro data peer parsed bgp recs h1 h2 h3
  unfold handle_route_monitoring at h3
  rw [h1] at h3
  simp only [Bind.bind, Except.bind] at h3
  rw [h2] at h3
  simp only [Pure.pure, Except.pure, Except.ok.injEq] at h3
  subst h3
  refine ⟨by simp, ?_, ?_⟩
  · intro r hr
    rw [show bgp.prefixes.length
          = (bgp.prefixes.map (fun p =>
              ({ bmp_peer_ip := peer, bmp_peer_asn := none,
                 bgp_peer_ip := parsed.per_peer_header.peer_address,
                 bgp_peer_asn := some parsed.per_peer_header.peer_asn,
                 family := determine_family bgp.afi bgp.safi, prefix_ := p,
                 next_hop := bgp.next_hop, as_path := bgp.as_path,
                 communities := bgp.communities, med := bgp.med,
                 local_pref := bgp.local_pref, is_withdrawn := false,
                 evpn_route_type := bgp.evpn_route_type,
                 evpn_rd := bgp.evpn_rd, evpn_esi := bgp.evpn_esi,
                 mac_address := bgp.mac_address } : RouteUpdateRec))).length
        from (List.length_map _ _).symm, List.take_left] at hr
    obtain ⟨p, _, rfl⟩ := List.mem_map.mp hr
    rfl
  · intro r hr
    rw [show bgp.prefixes.length
          = (bgp.prefixes.map (fun p =>
              ({ bmp_peer_ip := peer, bmp_peer_asn := none,
                 bgp_peer_ip := parsed.per_peer_header.peer_address,
                 bgp_peer_asn := some parsed.per_peer_header.peer_asn,
                 family := determine_family bgp.afi bgp.safi, prefix_ := p,
                 next_hop := bgp.next_hop, as_path := bgp.as_path,
                 communities := bgp.communities, med := bgp.med,
                 local_pref := bgp.local_pref, is_withdrawn := false,
                 evpn_route_type := bgp.evpn_route_type,
                 evpn_rd := bgp.evpn_rd, evpn_esi := bgp.evpn_esi,
                 mac_address := bgp.mac_address } : RouteUpdateRec))).length
        from (List.length_map _ _).symm, List.drop_left] at hr
    obtain ⟨p, _, rfl⟩ := List.mem_map.mp hr
    rfl

/-- Instance of `handler_record_count` at `bmpRMBoth` (one announcement,
one withdrawal). -/
theorem handler_record_count_at_bmpRMBoth :
    ∃ recs, handle_route_monitoring bmpRMBoth "203.0.113.7" = Except.ok recs ∧
      recs.length = 2 :=
  ⟨_, rfl, (handler_record_count bmpRMBoth "203.0.113.7" _ _ _ rfl rfl rfl).1⟩

set_option maxRecDepth 40000 in
/-- C3: on the EVPN route monitoring message the decoded UPDATE has one
announced prefix, and the single record the handler builds for it carries
a prefix that is not a CIDR string (it is the raw EVPN descriptor): the
source constructs `RouteUpdate` with this value for its `str | None`
`prefix` field, so the constructor raises and zero records reach the
batch writer instead of one. -/
theorem C3_evpn_record_not_string :
    (parse_bgp_update evpnUpdateBytes).map
        (fun u => (u.prefixes.length, u.withdrawn_prefixes.length)) =
      Except.ok (1, 0) ∧
    (handle_route_monitoring bmpRMEvpn "203.0.113.7").map
        (fun rs => rs.map (fun r => r.prefix_)) =
      Except.ok [NlriEntry.evpnRoute evpnT2Info] ∧
    (∀ s, NlriEntry.evpnRoute evpnT2Info ≠ NlriEntry.ipPrefix s) :=
  ⟨rfl, rfl, fun _ h => NlriEntry.noConfusion h⟩

/-- C4: the claim that the AS-size heuristic "defaults to a 4-byte width
in every other case" fails: with 6 remaining bytes and count 2 the
quotient is 3, yet the code picks the 2-byte width (6 < 2*4), and the
whole AS_PATH value `02 02 00 0a 00 14 02 00` decodes to two 2-byte ASNs. -/
theorem C4_counterexample :
    as_size_detect 6 2 = 2 ∧
    parse_as_path [2, 2, 0, 10, 0, 20, 2, 0] = Except.ok [10, 20] ∧
    ¬ (∀ remaining count, 0 < count → remaining / count ≠ 4 →
        remaining / count ≠ 2 → as_size_detect remaining count = 4) := by
  refine ⟨rfl, rfl, fun h => ?_⟩
  exact absurd (h 6 2 (by decide) (by decide) (by decide)) (by decide)

/-- C4 (amended): for a segment with count > 0 the heuristic picks the
4-byte width when remaining/count = 4, the 2-byte width when it is 2, and
in every other case picks 4 exactly when remaining ≥ 4*count and 2
otherwise; AS_SEQUENCE and AS_SET members are both appended to the flat
ordered output (second and third conjuncts: a SEQUENCE+SET value and a
SET-only value). -/
theorem C4_as_path_amended :
    (∀ remaining count, 0 < count →
      (remaining / count = 4 → as_size_detect remaining count = 4) ∧
      (remaining / count = 2 → as_size_detect remaining count = 2) ∧
      (remaining / count ≠ 4 → remaining / count ≠ 2 →
        as_size_detect remaining count =
          if count * 4 ≤ remaining then 4 else 2)) ∧
    parse_as_path [2, 2, 0, 0, 0xd, 0x1c, 0, 0, 0x3b, 0x41, 1, 1, 0, 0, 0x8e, 0x8c] =
      Except.ok [3356, 15169, 36492] ∧
    parse_as_path [1, 2, 0, 0, 0xd, 0x1c, 0, 0, 0x3b, 0x41] =
      Except.ok [3356, 15169] := by
  refine ⟨fun remaining count hpos => ⟨fun h4 => ?_, fun h2 => ?_, fun h4 h2 => ?_⟩,
    rfl, rfl⟩
  · simp [as_size_detect, hpos, h4]
  · simp [as_size_detect, hpos, h2]
  · simp [as_size_detect, hpos, h4, h2]

/-- C4 (amended) witness: quotient 4 picks width 4; quotient 2 picks
width 2; quotient 3 with 6 < 4*2 picks width 2. -/
theorem C4_as_path_amended_witness :
    as_size_detect 12 3 = 4 ∧ as_size_detect 10 5 = 2 ∧
    as_size_detect 6 2 = (if 2 * 4 ≤ 6 then 4 else 2) :=
  ⟨(C4_as_path_amended.1 12 3 (by decide)).1 (by decide),
   (C4_as_path_amended.1 10 5 (by decide)).2.1 (by decide),
   (C4_as_path_amended.1 6 2 (by decide)).2.2 (by decide) (by decide)⟩

/-- C5: extended-community dispatch: the two concrete scenarios of the
spec; every 8-byte entry with type 0x03 / subtype 0x0c takes the OSPF
Domain ID arm (never the generic opaque arm); and every entry whose type
byte is outside the handled set is rendered as `Unknown-XX:hex` rather
than dropped. -/
theorem C5_ext_comm_dispatch :
    parse_extended_communities [0x03, 0x0c, 0, 0, 0, 0, 0, 0x0a] =
      Except.ok ["OSPF-Domain:0.0.0.10"] ∧
    parse_extended_communities [0x00, 0x02, 0x00, 0x2a, 0, 0, 0, 0x01] =
      Except.ok ["RT:42:1"] ∧
    (∀ b2 b3 b4 b5 b6 b7 : Nat,
      ext_comm_entry [0x03, 0x0c, b2, b3, b4, b5, b6, b7] 0 =
        Except.ok ("OSPF-Domain:" ++ ipv4_str [b4, b5, b6, b7])) ∧
    (∀ t s b2 b3 b4 b5 b6 b7 : Nat,
      t ∉ ([0x00, 0x01, 0x02, 0x03, 0x06, 0x08, 0x0a] : List Nat) →
      ext_comm_entry [t, s, b2, b3, b4, b5, b6, b7] 0 =
        Except.ok ("Unknown-" ++ byteHex2 t ++ ":"
          ++ bytesHex [t, s, b2, b3, b4, b5, b6, b7])) := by
  refine ⟨rfl, rfl, fun b2 b3 b4 b5 b6 b7 => rfl,
    fun t s b2 b3 b4 b5 b6 b7 h => ?_⟩
  simp only [List.mem_cons, List.not_mem_nil, or_false, not_or] at h
  obtain ⟨h0, h1, h2, h3, h6, h8, h10⟩ := h
  simp [ext_comm_entry, read_uint8, read_bytes, Bind.bind, Except.bind,
    Pure.pure, Except.pure, h0, h1, h2, h3, h6, h8, h10]

/-- Inversion of a successful `parse_bmp_header`: the version byte is 3,
the advertised length is the 4-byte big-endian field at offset 1, and the
type byte maps to the returned message type. -/
theorem parse_bmp_header_ok_inv :
    ∀ data hdr, parse_bmp_header data = Except.ok hdr →
      data.getD 0 0 = 3 ∧ read_uint32 data 1 = Except.ok hdr.length ∧
      bmpMessageTypeOfNat (data.getD 5 0) = some hdr.msg_type := by
  intro data hdr h
  unfold parse_bmp_header at h
  by_cases h6 : data.length < 6
  · rw [if_pos h6] at h; cases h
  rw [if_neg h6] at h
  rw [read_uint8, if_neg (show ¬ data.length < 0 + 1 by omega)] at h
  simp only [Bind.bind, Except.bind] at h
  by_cases hv : data.getD 0 0 ≠ 3
  · rw [if_pos hv] at h; cases h
  rw [if_neg hv] at h
  rw [read_uint32, if_neg (show ¬ data.length < 1 + 4 by omega)] at h
  simp only [Bind.bind, Except.bind] at h
  by_cases hlow : 16777216 * data.getD 1 0 + 65536 * data.getD (1 + 1) 0
      + 256 * data.getD (1 + 2) 0 + data.getD (1 + 3) 0 < 6
  · rw [if_pos hlow] at h; cases h
  rw [if_neg hlow] at h
  rw [read_uint8, if_neg (show ¬ data.length < 5 + 1 by omega)] at h
  simp only [Bind.bind, Except.bind] at h
  cases hmt : bmpMessageTypeOfNat (data.getD 5 0) with
  | none => rw [hmt] at h; cases h
  | some t =>
    rw [hmt] at h
    simp only [Pure.pure, Except.pure, Except.ok.injEq] at h
    subst h
    refine ⟨by omega, ?_, by simp [hmt]⟩
    rw [read_uint32, if_neg (show ¬ data.length < 1 + 4 by omega)]

/-- C7: `parse_bmp_message` yields a typed message only when the buffer
covers the advertised 4-byte length, the version byte is 3 and the type
byte is known, raises a BMP parse error whenever one of these fails, and
produces the spec`s outcomes on `03 00 00 00 06 04` and
`02 00 00 00 06 04`. -/
theorem C7_bmp_message_gate :
    (∀ data m, parse_bmp_message data = Except.ok m →
      data.getD 0 0 = 3 ∧ (bmpMessageTypeOfNat (data.getD 5 0)).isSome ∧
      ∃ L, read_uint32 data 1 = Except.ok L ∧ L ≤ data.length) ∧
    (∀ data : List Nat,
      (data.getD 0 0 ≠ 3 ∨ bmpMessageTypeOfNat (data.getD 5 0) = none ∨
        (∀ L, read_uint32 data 1 = Except.ok L → data.length < L)) →
      ∃ e, parse_bmp_message data = Except.error e) ∧
    parse_bmp_message [3, 0, 0, 0, 6, 4] =
      Except.ok (BMPMessage.initiationMsg
        { header := { version := 3, length := 6,
                      msg_type := BMPMessageType.initiation },
          information_tlvs := [] }) ∧
    parse_bmp_message [2, 0, 0, 0, 6, 4] =
      Except.error "Invalid BMP version: expected 3, got 2" := by
  have gate1 : ∀ data m, parse_bmp_message data = Except.ok m →
      data.getD 0 0 = 3 ∧ (bmpMessageTypeOfNat (data.getD 5 0)).isSome ∧
      ∃ L, read_uint32 data 1 = Except.ok L ∧ L ≤ data.length := by
    intro data m h
    unfold parse_bmp_message at h
    cases hh : parse_bmp_header data with
    | error e => rw [hh] at h; cases h
    | ok hdr =>
      rw [hh] at h
      simp only [Bind.bind, Except.bind] at h
      obtain ⟨h3, hlen, hmt⟩ := parse_bmp_header_ok_inv data hdr hh
      split at h
      · cases h
      next hfits =>
        exact ⟨h3, by rw [hmt]; rfl, hdr.length, hlen, by omega⟩
  refine ⟨gate1, fun data hdisj => ?_, rfl, rfl⟩
  cases hp : parse_bmp_message data with
  | error e => exact ⟨e, rfl⟩
  | ok m =>
    exfalso
    obtain ⟨h3, hsome, L, hL, hle⟩ := gate1 data m hp
    rcases hdisj with hbad | hbad | hbad
    · exact hbad h3
    · rw [hbad] at hsome; cases hsome
    · exact absurd hle (by have := hbad L hL; omega)

/-- C7 witness: the universal arms applied at the two concrete headers. -/
theorem C7_bmp_message_gate_witness :
    (([3, 0, 0, 0, 6, 4] : List Nat).getD 0 0 = 3 ∧
      (bmpMessageTypeOfNat (([3, 0, 0, 0, 6, 4] : List Nat).getD 5 0)).isSome ∧
      ∃ L, read_uint32 [3, 0, 0, 0, 6, 4] 1 = Except.ok L ∧
        L ≤ ([3, 0, 0, 0, 6, 4] : List Nat).length) ∧
    (∃ e, parse_bmp_message [2, 0, 0, 0, 6, 4] = Except.error e) :=
  ⟨C7_bmp_message_gate.1 [3, 0, 0, 0, 6, 4] _ C7_bmp_message_gate.2.2.1,
   C7_bmp_message_gate.2.1 [2, 0, 0, 0, 6, 4] (Or.inl (by decide))⟩

/-- Successful sequential execution issues every call in order. -/
theorem exec_ops_ok_trace (fail : DBOp → Option String) :
    ∀ ops, (exec_ops fail ops).2 = Except.ok () → (exec_ops fail ops).1 = ops := by
  intro ops
  induction ops with
  | nil => intro _; rfl
  | cons op rest ih =>
    intro h
    unfold exec_ops at h
    cases hf : fail op with
    | some e => rw [hf] at h; simp at h
    | none =>
      rw [hf] at h
      have h2 : (exec_ops fail rest).2 = Except.ok () := h
      show (exec_ops fail (op :: rest)).1 = op :: rest
      unfold exec_ops
      rw [hf]
      simpa using ih h2

/-- Sequential execution succeeds exactly when every call succeeds, so
no failure of any issued call can be swallowed. -/
theorem exec_ops_ok_iff (fails : DBOp → Option String) :
    ∀ ops, (exec_ops fails ops).2 = Except.ok () ↔
      ∀ op ∈ ops, fails op = none := by
  intro ops
  induction ops with
  | nil => simp [exec_ops]
  | cons op rest ih =>
    constructor
    · intro h
      unfold exec_ops at h
      cases hf : fails op with
      | some e => rw [hf] at h; simp at h
      | none =>
        rw [hf] at h
        intro op2 hmem
        rcases List.mem_cons.mp hmem with rfl | hmem
        · exact hf
        · exact ih.mp h op2 hmem
    · intro h
      have h1 : fails op = none := h op (List.mem_cons_self op rest)
      unfold exec_ops
      rw [h1]
      exact ih.mpr (fun op2 hm => h op2 (List.mem_cons_of_mem op hm))

/-- A failing sequential execution reports the error of one of the calls
it was asked to issue. -/
theorem exec_ops_error_source (fails : DBOp → Option String) :
    ∀ ops e, (exec_ops fails ops).2 = Except.error e →
      ∃ op ∈ ops, fails op = some e := by
  intro ops
  induction ops with
  | nil => intro e h; simp [exec_ops] at h
  | cons op rest ih =>
    intro e h
    unfold exec_ops at h
    cases hf : fails op with
    | some e2 =>
      rw [hf] at h
      simp at h
      exact ⟨op, List.mem_cons_self op rest, by rw [hf, h]⟩
    | none =>
      rw [hf] at h
      obtain ⟨op2, hm, hop⟩ := ih e h
      exact ⟨op2, List.mem_cons_of_mem op hm, hop⟩

/-- C8: flushing a non-empty batch issues exactly one bulk copy of all
buffered records followed by one `update_route_state` call per record in
insertion order (on success), empties the buffer whether or not a call
failed, and propagates every failure as the flush outcome: a copy failure
directly, and in general the flush succeeds iff the copy and every
`update_route_state` call succeeded, a failing flush reporting the error
of one of those calls. -/
theorem C8_flush_contract :
    ∀ (fail : DBOp → Option String) (bw : BatchWriter), bw.batch ≠ [] →
      (BatchWriter.flush fail bw).1.batch = [] ∧
      ((BatchWriter.flush fail bw).2.2 = Except.ok () →
        (BatchWriter.flush fail bw).2.1 =
          DBOp.copyRows bw.batch :: bw.batch.map DBOp.updateRouteState) ∧
      (∀ e, fail (DBOp.copyRows bw.batch) = some e →
        (BatchWriter.flush fail bw).2.2 = Except.error e) ∧
      ((BatchWriter.flush fail bw).2.2 = Except.ok () ↔
        ∀ op ∈ DBOp.copyRows bw.batch :: bw.batch.map DBOp.updateRouteState,
          fail op = none) ∧
      (∀ e, (BatchWriter.flush fail bw).2.2 = Except.error e →
        ∃ op ∈ DBOp.copyRows bw.batch :: bw.batch.map DBOp.updateRouteState,
          fail op = some e) := by
  intro fail bw hne
  have hlen : ¬ bw.batch.length = 0 := by simpa using hne
  unfold BatchWriter.flush
  rw [if_neg hlen]
  refine ⟨rfl, fun hok => ?_, fun e hf => ?_, ?_, fun e he => ?_⟩
  · exact exec_ops_ok_trace fail _ (by simpa using hok)
  · show (exec_ops fail _).2 = Except.error e
    unfold exec_ops
    rw [hf]
  · exact exec_ops_ok_iff fail _
  · exact exec_ops_error_source fail _ e he

/-- Concrete route record used to witness the batch-writer contract. -/
def sampleRoute : RouteUpdateRec :=
  { bmp_peer_ip := "203.0.113.7", bmp_peer_asn := none,
    bgp_peer_ip := "10.0.0.1", bgp_peer_asn := some 65001,
    family := "ipv4_unicast", prefix_ := NlriEntry.ipPrefix "10.0.0.0/8",
    next_hop := some "192.0.2.254", as_path := some [65001],
    communities := none, med := none, local_pref := none,
    is_withdrawn := false, evpn_route_type := none, evpn_rd := none,
    evpn_esi := none, mac_address := none }

/-- Store stub for the C8 witness that fails every
`update_route_state` call and nothing else. -/
def failOnUpdate : DBOp → Option String
  | DBOp.updateRouteState _ => some "update_route_state failed"
  | _ => none

/-- C8 witness: a singleton batch against a store that never fails
(success trace) and against one whose `update_route_state` call fails
(buffer still cleared, the update error propagated as the outcome of a
call the flush issued). -/
theorem C8_flush_contract_witness :
    (BatchWriter.flush (fun _ => none)
      { is_running := true, batch := [route_to_tuple sampleRoute] }).1.batch = [] ∧
    (BatchWriter.flush (fun _ => none)
      { is_running := true, batch := [route_to_tuple sampleRoute] }).2.1 =
      DBOp.copyRows [route_to_tuple sampleRoute] ::
        [route_to_tuple sampleRoute].map DBOp.updateRouteState ∧
    (BatchWriter.flush failOnUpdate
      { is_running := true, batch := [route_to_tuple sampleRoute] }).1.batch = [] ∧
    (BatchWriter.flush failOnUpdate
      { is_running := true, batch := [route_to_tuple sampleRoute] }).2.2 =
      Except.error "update_route_state failed" ∧
    ∃ op ∈ DBOp.copyRows [route_to_tuple sampleRoute] ::
        [route_to_tuple sampleRoute].map DBOp.updateRouteState,
      failOnUpdate op = some "update_route_state failed" := by
  have h := C8_flush_contract (fun _ => none)
    { is_running := true, batch := [route_to_tuple sampleRoute] } (by simp)
  have h2 := C8_flush_contract failOnUpdate
    { is_running := true, batch := [route_to_tuple sampleRoute] } (by simp)
  exact ⟨h.1, h.2.1 rfl, h2.1, rfl,
    h2.2.2.2.2 "update_route_state failed" rfl⟩

/-- A checksum mismatch anywhere in the file list makes the pending
computation fail. -/
theorem find_pending_mismatch :
    ∀ (applied : List (Nat × String)) (files : List MigrationFile)
      (m : MigrationFile) (c : String),
      m ∈ files → applied.lookup m.version = some c → m.checksum ≠ c →
      ∃ e, find_pending applied files = Except.error e := by
  intro applied files
  induction files with
  | nil => intro m c hm _ _; cases hm
  | cons f rest ih =>
    intro m c hm hlook hne
    rcases List.mem_cons.mp hm with rfl | hm
    · exact ⟨"Migration checksum mismatch - file may have been tampered with",
        by simp [find_pending, hlook, hne]⟩
    · cases hl : applied.lookup f.version with
      | none =>
        obtain ⟨e, he⟩ := ih m c hm hlook hne
        exact ⟨e, by simp [find_pending, hl, he]⟩
      | some c2 =>
        by_cases hcs : f.checksum ≠ c2
        · exact ⟨"Migration checksum mismatch - file may have been tampered with",
            by simp [find_pending, hl, hcs]⟩
        · obtain ⟨e, he⟩ := ih m c hm hlook hne
          exact ⟨e, by simp [find_pending, hl, hcs, he]⟩

/-- C9: if any migration file whose version is already recorded in
`schema_migrations` carries a different checksum, the migration run fails
with the checksum-mismatch error, executes zero migration files, and adds
no row to `schema_migrations`. -/
theorem C9_checksum_mismatch_aborts :
    ∀ (files : List MigrationFile) (applied : List (Nat × String))
      (m : MigrationFile) (c : String),
      m ∈ files → applied.lookup m.version = some c → m.checksum ≠ c →
      ∃ e, apply_migrations files applied true =
        ([], applied, Except.error e) := by
  intro files applied m c hm hl hne
  obtain ⟨e, he⟩ := find_pending_mismatch applied files m c hm hl hne
  refine ⟨e, ?_⟩
  unfold apply_migrations get_pending_migrations
  simp [he]

/-- Concrete migration files for the C9 witness. -/
def migA : MigrationFile :=
  { version := 1, name := "initial", checksum := "aaa", sql := "CREATE" }

/-- Second concrete migration file for the C9 witness. -/
def migB : MigrationFile :=
  { version := 2, name := "evpn", checksum := "bbb", sql := "ALTER" }

/-- C9 witness: version 1 is recorded with a different checksum, so the
run aborts with no file executed and the rows unchanged. -/
theorem C9_checksum_mismatch_aborts_witness :
    ∃ e, apply_migrations [migA, migB] [(1, "zzz")] true =
      ([], [(1, "zzz")], Except.error e) :=
  C9_checksum_mismatch_aborts [migA, migB] [(1, "zzz")] migA "zzz"
    (by simp) (by decide) (by decide)

/-- C10: every record the session handler emits keeps the model default
`extended_communities = None`, and the batch-writer tuple built from it
carries the same null, whatever the decoded UPDATE contained. -/
theorem C10_extended_communities_null :
    ∀ data peer recs, handle_route_monitoring data peer = Except.ok recs →
      ∀ r ∈ recs, r.extended_communities = none ∧
        (route_to_tuple r).extended_communities = none := by
  intro data peer recs h r hr
  unfold handle_route_monitoring at h
  obtain ⟨parsed, h1, h⟩ := except_bind_ok h
  obtain ⟨bgp, h2, h⟩ := except_bind_ok h
  simp only [Pure.pure, Except.pure, Except.ok.injEq] at h
  subst h
  rcases List.mem_append.mp hr with hmem | hmem <;>
    obtain ⟨p, _, rfl⟩ := List.mem_map.mp hmem <;> exact ⟨rfl, rfl⟩

/-- Concrete BGP UPDATE announcing 10.0.0.0/8 with an
EXTENDED_COMMUNITIES attribute `00 02 00 2a 00 00 00 01` (RT:42:1). -/
def updExtCommBytes : List Nat :=
  List.replicate 16 255 ++ [0, 36, 2] ++ [0, 0] ++ [0, 11] ++
  ([0xc0, 16, 8] ++ [0x00, 0x02, 0x00, 0x2a, 0, 0, 0, 0x01]) ++ [8, 10]

/-- Concrete BMP route monitoring message wrapping `updExtCommBytes`. -/
def bmpRMExtComm : List Nat :=
  [3, 0, 0, 0, 84, 0] ++ perPeerBytes ++ updExtCommBytes

/-- C10 witness: the decoded UPDATE carries `RT:42:1` in its parsed
extended communities, yet the emitted record stores null. -/
theorem C10_extended_communities_null_witness :
    (parse_bgp_update updExtCommBytes).map (fun u => u.extended_communities) =
      Except.ok (some ["RT:42:1"]) ∧
    ∃ recs, handle_route_monitoring bmpRMExtComm "203.0.113.7" = Except.ok recs ∧
      recs ≠ [] ∧ ∀ r ∈ recs, r.extended_communities = none := by
  refine ⟨rfl, _, rfl, by decide, fun r hr =>
    (C10_extended_communities_null bmpRMExtComm "203.0.113.7" _ rfl r hr).1⟩

/-- C5 witness: the universally quantified arms applied at the spec`s
OSPF bytes and at the unrecognised type 0x40. -/
theorem C5_ext_comm_dispatch_witness :
    ext_comm_entry [0x03, 0x0c, 0, 0, 0, 0, 0, 10] 0 =
      Except.ok ("OSPF-Domain:" ++ ipv4_str [0, 0, 0, 10]) ∧
    ext_comm_entry [0x40, 2, 0, 0, 0, 0, 0, 1] 0 =
      Except.ok ("Unknown-" ++ byteHex2 0x40 ++ ":"
        ++ bytesHex [0x40, 2, 0, 0, 0, 0, 0, 1]) :=
  ⟨C5_ext_comm_dispatch.2.2.1 0 0 0 0 0 10,
   C5_ext_comm_dispatch.2.2.2 0x40 2 0 0 0 0 0 1 (by decide)⟩
